import Mathlib

/-!
# RPI_Pico_W_Tracker: the SIM7670G modem driver and the bot built on it

A shallow embedding of `src/Sim7670G/sim7670g.cpp`, of the message queue of
`src/TelegramBot/TelegramBot.cpp` and of the message handler of `src/main.cpp`.

* A C `char` is a natural number; a C string is the list of its bytes, without
  the terminator.
* Time is not modelled by a clock.  A loop guarded by a deadline is run over
  the list of the outcomes of the waits it performs before the deadline expires:
  when the list is used up, the deadline has passed.
* `printf` and `sleep_ms` have no effect on the results and are left out.
-/

namespace Sim7670G

/-- A C string: its bytes up to, not including, the terminator. -/
abbrev Line := List Nat

/-- The bytes of a string literal of the source (all of them are ASCII). -/
def str (s : String) : Line := s.toList.map Char.toNat

/-- The byte `'\r'`. -/
def CR : Nat := 13
/-- The byte `'\n'`. -/
def LF : Nat := 10
/-- The byte `'\0'`. -/
def NUL : Nat := 0
/-- The byte `'"'`. -/
def QUOTE : Nat := 34
/-- The byte `'\\'`. -/
def BACKSLASH : Nat := 92
/-- The byte that opens a JSON object. -/
def LBRACE : Nat := 123
/-- The byte that closes a JSON object. -/
def RBRACE : Nat := 125

/-- `strstr(haystack, needle) != NULL` of the C library, on strings without an
embedded terminator: `needle` occurs in `haystack` as a contiguous run. -/
def strstr : Line → Line → Bool
  | [], needle => needle.isPrefixOf []
  | c :: rest, needle => needle.isPrefixOf (c :: rest) || strstr rest needle

/-! ## Line Reader: `sim7670g_read_line_skip_empty` (lines 77-119) -/

/-- What one call of the line reader leaves behind: the return value, the bytes
written to `line` (the text followed by its terminator) and the bytes of the
input it has not taken from the UART. -/
structure ReadResult where
  ok : Bool
  line : List Nat
  rest : List (List Nat)
deriving DecidableEq, Repr

/-- The inner loop `while (uart_is_readable(...))` over the bytes that are
readable in one pass; `buf` is `line[0..pos)`.  Returns `Sum.inl` when the
function returns from inside the loop (text, unread bytes of this pass) and
`Sum.inr buf` when the UART runs dry. -/
def read_line_inner (max_len : Int) : List Nat → List Nat → Sum (List Nat × List Nat) (List Nat)
  | [], buf => Sum.inr buf
  | c :: cs, buf =>
    if c = CR then read_line_inner max_len cs buf
    else if c = LF then
      if buf.length > 0 then Sum.inl (buf, cs)
      else read_line_inner max_len cs []
    else if (buf.length : Int) < max_len - 1 then read_line_inner max_len cs (buf ++ [c])
    else read_line_inner max_len cs buf

/-- The outer loop `while ((time_us_64() - start_time) < timeout_ms * 1000)`:
one element of `chunks` per pass that starts before the deadline, holding the
bytes readable during that pass. -/
def read_line_loop (max_len : Int) : List (List Nat) → List Nat → ReadResult
  | [], buf => ⟨false, buf ++ [NUL], []⟩
  | chunk :: chunks, buf =>
    match read_line_inner max_len chunk buf with
    | Sum.inl (text, unread) => ⟨true, text ++ [NUL], unread :: chunks⟩
    | Sum.inr buf2 => read_line_loop max_len chunks buf2

/-- `sim7670g_read_line_skip_empty(line, max_len, timeout_ms)`. -/
def sim7670g_read_line_skip_empty (max_len : Int) (chunks : List (List Nat)) : ReadResult :=
  read_line_loop max_len chunks []

/-! ## Command Engine: `sim7670g_send_command` (lines 124-185) -/

/-- The response loop of `sim7670g_send_command`.  `events` holds the outcome of
each call `sim7670g_read_line_skip_empty(response, 256, 100)` made before the
overall deadline: `some l` when it returned true with text `l`, `none` when it
returned false. -/
def send_command_loop (expected_response : Option Line) : List (Option Line) → Nat → Bool
  | [], _ => false
  | ev :: events, line_count =>
    if line_count < 10 then
      match ev with
      | none => send_command_loop expected_response events line_count
      | some response =>
        match expected_response with
        | some tok =>
          if strstr response tok then true
          else send_command_loop expected_response events (line_count + 1)
        | none =>
          if strstr response (str "OK") then true
          else if strstr response (str "ERROR") then false
          else send_command_loop expected_response events (line_count + 1)
    else false

/-! ## The modem, the C library and the driver object -/

/-- The four module states of `sim7670g.h`. -/
inductive sim7670g_state_t where
  | SIM7670G_STATE_IDLE
  | SIM7670G_STATE_INITIALIZING
  | SIM7670G_STATE_READY
  | SIM7670G_STATE_ERROR
deriving DecidableEq, Repr

open sim7670g_state_t

/-- The record `sim7670g_info_t` (the unused `imsi` is left out). -/
structure sim7670g_info_t where
  state : sim7670g_state_t
  imei : Line
  signal_quality : Int
  sim_ready : Bool
  network_registered : Bool
  gprs_attached : Bool
  pdp_active : Bool
deriving DecidableEq, Repr

/-- What `sscanf(response, "+CGPSINFO: %lf,%c,%lf,%c", ...)` does: the number
of converted fields it returns and the value it stores for each field it
converted (the value of a field that was not converted is not used). -/
structure CgpsScan where
  parsed : Int
  lat_raw : ℚ
  lat_dir : Nat
  lon_raw : ℚ
  lon_dir : Nat
deriving DecidableEq, Repr

/-- Everything outside the driver.  An exchange is what happens between two
calls of `sim7670g_rx_flush`; exchanges are numbered in the order of the
flushes.
* `lines k`: the outcomes of the successive calls of the line reader during
  exchange `k`, as in `send_command_loop`;
* `bytes k`: the outcomes of the successive 100 ms byte waits of the streaming
  read during exchange `k`, before the 30 s deadline: `some c` when byte `c`
  arrived, `none` when the wait timed out;
* `sscanf_csq`: the value `sscanf(response, "+CSQ: %d,%d", &rssi, &ber)` stores
  in `rssi`, if it converts the first field;
* `sscanf_cgpsinfo`: the position-line conversion;
* `sscanf_httpaction`: the values of `status` and `length` after
  `sscanf(response, "+HTTPACTION: %d,%d,%d", &method, &status, &length)`. -/
structure Env where
  lines : Nat → List (Option Line)
  bytes : Nat → List (Option Nat)
  sscanf_csq : Line → Option Int
  sscanf_cgpsinfo : Line → CgpsScan
  sscanf_httpaction : Line → Int × Int

/-- The driver object and its trace: the number of flushes so far (the index of
the current exchange), every argument of `sim7670g_tx_string` so far (oldest
first), the member `device_info` and the member `pin_`. -/
structure St where
  xchg : Nat
  tx : List Line
  device_info : sim7670g_info_t
  pin_ : Line
deriving DecidableEq, Repr

/-- `SIM7670G_CMD_TIMEOUT`. -/
def SIM7670G_CMD_TIMEOUT : Nat := 5000

/-- `sim7670g_tx_string(str)`. -/
def sim7670g_tx_string (st : St) (s : Line) : St :=
  { st with tx := st.tx ++ [s] }

/-- `sim7670g_rx_flush()`: pending input is dropped, a new exchange starts. -/
def sim7670g_rx_flush (st : St) : St :=
  { st with xchg := st.xchg + 1 }

/-- A single call of the line reader in the current exchange: `some text` when
it returns true. -/
def read_line_once (env : Env) (st : St) : Option Line :=
  match env.lines st.xchg with
  | some response :: _ => some response
  | _ => none

/-- `sim7670g_send_command(cmd, expected_response, timeout)`. -/
def sim7670g_send_command (env : Env) (st : St) (cmd : Line) (expected_response : Option Line) :
    Bool × St :=
  let st1 := sim7670g_rx_flush st
  let st2 := sim7670g_tx_string st1 cmd
  let st3 := sim7670g_tx_string st2 (str "\r\n")
  (send_command_loop expected_response (env.lines st3.xchg) 0, st3)

/-- `sim7670g_check_sim()`. -/
def sim7670g_check_sim (env : Env) (st : St) : Bool × St :=
  let r1 := sim7670g_send_command env st (str "AT+CPIN?") (some (str "SIM PIN"))
  if r1.1 then
    let pinCommand := str "AT+CPIN=\"" ++ r1.2.pin_ ++ str "\""
    let r2 := sim7670g_send_command env r1.2 pinCommand (some (str "OK"))
    if r2.1 then
      (true, { r2.2 with device_info := { r2.2.device_info with sim_ready := true } })
    else (false, r2.2)
  else
    let r2 := sim7670g_send_command env r1.2 (str "AT+CPIN?") (some (str "READY"))
    if !r2.1 then (false, r2.2)
    else (true, { r2.2 with device_info := { r2.2.device_info with sim_ready := true } })

/-- The loop `while (retries > 0)` of `sim7670g_check_signal`; one unit of
`fuel` per pass, `none` when the fuel runs out before the loop ends. -/
def check_signal_loop (env : Env) : Nat → St → Int → Int → Option (Bool × St)
  | 0, _, _, _ => none
  | fuel + 1, st, rssi, retries =>
    if retries > 0 then
      let st1 := sim7670g_tx_string (sim7670g_rx_flush st) (str "AT+CSQ\r\n")
      match read_line_once env st1 with
      | some response =>
        if strstr response (str "+CSQ:") then
          let rssi1 := match env.sscanf_csq response with
            | some r => r
            | none => rssi
          let st2 := { st1 with device_info := { st1.device_info with signal_quality := rssi1 } }
          if rssi1 = 99 then check_signal_loop env fuel st2 rssi1 (retries - 1)
          else some (true, st2)
        else check_signal_loop env fuel st1 rssi retries
      | none => check_signal_loop env fuel st1 rssi retries
    else some (false, st)

/-- `sim7670g_check_signal()`. -/
def sim7670g_check_signal (env : Env) (fuel : Nat) (st : St) : Option (Bool × St) :=
  check_signal_loop env fuel st 99 3

/-- `sim7670g_attach_gprs()`. -/
def sim7670g_attach_gprs (env : Env) (st : St) : Bool × St :=
  let r := sim7670g_send_command env st (str "AT+CGATT=1") (some (str "OK"))
  if !r.1 then (false, r.2)
  else (true, { r.2 with device_info := { r.2.device_info with gprs_attached := true } })

/-- `sim7670g_activate_pdp()`. -/
def sim7670g_activate_pdp (env : Env) (st : St) : Bool × St :=
  let r1 := sim7670g_send_command env st (str "AT+CGDCONT=1,\"IP\",\"internet\"") (some (str "OK"))
  let r2 := sim7670g_send_command env r1.2 (str "AT+CGACT=1,1") (some (str "OK"))
  if !r2.1 then (false, r2.2)
  else (true, { r2.2 with device_info := { r2.2.device_info with pdp_active := true } })

/-- `sim7670g_gnss_power_on()`. -/
def sim7670g_gnss_power_on (env : Env) (st : St) : Bool × St :=
  let r := sim7670g_send_command env st (str "AT+CGNSSPWR=1") (some (str "OK"))
  if !r.1 then (false, r.2) else (true, r.2)

/-- `sim7670g_gnss_check_power()`: it only prints what it reads. -/
def sim7670g_gnss_check_power (_env : Env) (st : St) : St :=
  sim7670g_tx_string (sim7670g_rx_flush st) (str "AT+CGNSSPWR?\r\n")

/-- `sim7670g_get_info(info)`. -/
def sim7670g_get_info (env : Env) (st : St) : Bool × St :=
  let st1 := sim7670g_tx_string (sim7670g_rx_flush st) (str "AT+GSN\r\n")
  match read_line_once env st1 with
  | some response =>
    (true, { st1 with device_info := { st1.device_info with imei := response.take 15 } })
  | none => (true, st1)

/-! ## GNSS Locator: `sim7670g_gnss_get_location` (lines 334-396) -/

/-- The C conversion `(int)x` of a `double`, over exact rationals: the
fractional part is dropped (rounding toward zero). -/
def c_int_cast (x : ℚ) : Int :=
  if 0 ≤ x then Int.floor x else Int.ceil x

/-- The body run on the first line that contains `"+CGPSINFO:"` (lines 356-389),
given what `sscanf` did on it: `some (flat, flon)` when the function returns
true with `*lat = flat` and `*lon = flon`, `none` when it reaches `break`. -/
def gnss_convert (sc : CgpsScan) : Option (ℚ × ℚ) :=
  let lat_raw : ℚ := if sc.parsed ≥ 1 then sc.lat_raw else 0
  let lat_dir : Nat := if sc.parsed ≥ 2 then sc.lat_dir else 78
  let lon_raw : ℚ := if sc.parsed ≥ 3 then sc.lon_raw else 0
  let lon_dir : Nat := if sc.parsed ≥ 4 then sc.lon_dir else 87
  if sc.parsed ≥ 3 ∧ lat_raw > 0 ∧ lon_raw > 0 then
    let lat_degrees : ℚ := c_int_cast (lat_raw / 100)
    let lat_minutes : ℚ := lat_raw - lat_degrees * 100
    let flat0 : ℚ := lat_degrees + lat_minutes / 60
    let lon_degrees : ℚ := c_int_cast (lon_raw / 100)
    let lon_minutes : ℚ := lon_raw - lon_degrees * 100
    let flon0 : ℚ := -(lon_degrees + lon_minutes / 60)
    let flat : ℚ := if lat_dir = 83 then -flat0 else flat0
    let flon : ℚ := if lon_dir = 87 then -flon0 else flon0
    if flat ≥ -90 ∧ flat ≤ 90 ∧ flon ≥ -180 ∧ flon ≤ 180 then some (flat, flon)
    else none
  else none

/-- The loop `while ((time_us_64() - start) < 3000000ULL)` over the outcomes of
the calls of the line reader made before the 3 s deadline. -/
def gnss_location_loop (env : Env) : List (Option Line) → Option (ℚ × ℚ)
  | [] => none
  | none :: events => gnss_location_loop env events
  | some response :: events =>
    if strstr response (str "+CGPSINFO:") then gnss_convert (env.sscanf_cgpsinfo response)
    else gnss_location_loop env events

/-- `sim7670g_gnss_get_location(lat, lon)` with both pointers non-null: the
coordinate written through them when it returns true. -/
def sim7670g_gnss_get_location (env : Env) (st : St) : Option (ℚ × ℚ) × St :=
  let st1 := sim7670g_tx_string (sim7670g_rx_flush st) (str "AT+CGPSINFO\r\n")
  (gnss_location_loop env (env.lines st1.xchg), st1)

/-! ## HTTP Transfer: `sim7670g_https_get` (lines 445-634) -/

/-- `strchr(s, c)` of the C library as an offset: the first `c`, sought up to
the terminator. -/
def strchr : List Nat → Nat → Option Nat
  | [], _ => none
  | x :: xs, c =>
    if x = c then some 0
    else if x = NUL then none
    else (strchr xs c).map (· + 1)

/-- The loop `for (char* p = json_start; p < response_buffer + pos; p++)`
(lines 549-565 and again 594-613) over the bytes from `p` on; `p` is the offset
of the current byte.  The result is the offset `json_end`. -/
def brace_scan_loop : List Nat → Nat → Int → Bool → Bool → Option Nat
  | [], _, _, _, _ => none
  | c :: rest, p, brace_count, in_string, escape_next =>
    let in_string1 := if c = QUOTE ∧ escape_next = false then !in_string else in_string
    let escape_next1 := decide (c = BACKSLASH ∧ escape_next = false)
    if in_string1 = false then
      if c = LBRACE then brace_scan_loop rest (p + 1) (brace_count + 1) in_string1 escape_next1
      else if c = RBRACE then
        if brace_count - 1 = 0 then some p
        else brace_scan_loop rest (p + 1) (brace_count - 1) in_string1 escape_next1
      else brace_scan_loop rest (p + 1) brace_count in_string1 escape_next1
    else brace_scan_loop rest (p + 1) brace_count in_string1 escape_next1

/-- The brace-balance scan of the `pos` bytes received so far (`buf`):
`strchr(response_buffer, LBRACE)` followed by the loop.  `some (i, j)` gives the
offsets of `json_start` and `json_end`; `none` stands for `json_end == NULL`.
A `json_start` found at or beyond `pos` leaves the loop without a pass, so the
search is made in the received bytes only. -/
def brace_scan (buf : List Nat) : Option (Nat × Nat) :=
  match strchr buf LBRACE with
  | none => none
  | some i =>
    match brace_scan_loop (buf.drop i) i 0 false false with
    | none => none
    | some j => some (i, j)

/-- How the streaming loop of `sim7670g_https_get` came to an end. -/
inductive StreamExit where
  | capacity
  | deadline
  | json_complete
  | silence
deriving DecidableEq, Repr

/-- The streaming loop (lines 515-581): `buf` is `response_buffer[0..pos)`. -/
def https_stream_loop (buffer_len : Int) : List (Option Nat) → List Nat → Int → List Nat × StreamExit
  | [], buf, _ =>
    if (buf.length : Int) < buffer_len - 1 then (buf, StreamExit.deadline)
    else (buf, StreamExit.capacity)
  | ev :: events, buf, no_data_loops =>
    if (buf.length : Int) < buffer_len - 1 then
      match ev with
      | some c => https_stream_loop buffer_len events (buf ++ [c]) 0
      | none =>
        if no_data_loops + 1 > 50 then
          if (brace_scan buf).isSome then (buf, StreamExit.json_complete)
          else if no_data_loops + 1 > 200 then (buf, StreamExit.silence)
          else https_stream_loop buffer_len events buf (no_data_loops + 1)
        else https_stream_loop buffer_len events buf (no_data_loops + 1)
    else (buf, StreamExit.capacity)

/-- What `sim7670g_https_get` returns and the bytes it leaves at the start of
`response_buffer`. -/
structure HttpResult where
  ok : Bool
  response_buffer : List Nat
deriving DecidableEq, Repr

/-- The final extraction (lines 586-633) from the received bytes. -/
def https_extract (buf : List Nat) : HttpResult :=
  match brace_scan buf with
  | some (i, j) =>
    if j > i then
      let json_len := j - i + 1
      ⟨true, (buf.drop i).take json_len ++ [NUL]⟩
    else ⟨false, buf⟩
  | none => ⟨false, buf⟩

/-- The loop waiting for the action result (lines 474-493 and 683-701): the
values of `status` and `length` taken from the first line that contains
`"+HTTPACTION:"`. -/
def http_action_loop (env : Env) : List (Option Line) → Option (Int × Int)
  | [] => none
  | none :: events => http_action_loop env events
  | some response :: events =>
    if strstr response (str "+HTTPACTION:") then some (env.sscanf_httpaction response)
    else http_action_loop env events

/-- The request phase of `sim7670g_https_get` (lines 455-498) with non-null
arguments: `some content_length` when the function goes on to read the body. -/
def https_get_request (env : Env) (st : St) (url : Line) : Option Int × St :=
  let cmd := (str "AT+HTTPPARA=\"URL\",\"" ++ url ++ str "\"").take 511
  let r1 := sim7670g_send_command env st cmd (some (str "OK"))
  if !r1.1 then (none, r1.2)
  else
    let r2 := sim7670g_send_command env r1.2
      (str "AT+HTTPPARA=\"USERDATA\",\"Accept-Encoding: identity\"") (some (str "OK"))
    let st3 := sim7670g_tx_string (sim7670g_rx_flush r2.2) (str "AT+HTTPACTION=0\r\n")
    match http_action_loop env (env.lines st3.xchg) with
    | none => (none, st3)
    | some (status, length) =>
      if !(decide (status = 200)) || decide (length ≤ 0) then (none, st3)
      else (some length, st3)

/-- `sim7670g_https_get(url, response_buffer, buffer_len)` with non-null
arguments. -/
def sim7670g_https_get (env : Env) (st : St) (url : Line) (buffer_len : Int) : HttpResult × St :=
  match https_get_request env st url with
  | (none, st1) => (⟨false, []⟩, st1)
  | (some content_length, st1) =>
    let cmd := (str "AT+HTTPREAD=0," ++ str (toString content_length) ++ str "\r\n").take 511
    let st2 := sim7670g_tx_string (sim7670g_rx_flush st1) cmd
    (https_extract (https_stream_loop buffer_len (env.bytes st2.xchg) [] 0).1, st2)

/-! ## Session Controller: `sim7670g_init` (lines 719-817) -/

/-- The loop `for (int i = 0; i < 300; i++)` of `sim7670g_init`, with `n` passes
left: it ends at the first successful position query. -/
def gnss_fix_loop (env : Env) : Nat → St → St
  | 0, st => st
  | n + 1, st =>
    let r := sim7670g_gnss_get_location env st
    if r.1.isSome then r.2 else gnss_fix_loop env n r.2

/-- Lines 775-817 of `sim7670g_init`: GNSS, identity, `SIM7670G_STATE_READY`. -/
def init_tail (env : Env) (st : St) : Bool × St :=
  let g := sim7670g_gnss_power_on env st
  let st1 := if g.1 then gnss_fix_loop env 300 (sim7670g_gnss_check_power env g.2) else g.2
  let st2 := (sim7670g_get_info env st1).2
  (true, { st2 with device_info := { st2.device_info with state := SIM7670G_STATE_READY } })

/-- `sim7670g_init()`.  `fuel` bounds the passes of the loop of the signal
check; the result is `none` when that loop does not end within it. -/
def sim7670g_init (env : Env) (fuel : Nat) (st : St) : Option (Bool × St) :=
  let st0 := { st with device_info := { st.device_info with state := SIM7670G_STATE_INITIALIZING } }
  let e := sim7670g_send_command env st0 (str "ATE0") (some (str "OK"))
  let sim := sim7670g_check_sim env e.2
  if !sim.1 then
    some (false, { sim.2 with device_info := { sim.2.device_info with state := SIM7670G_STATE_ERROR } })
  else
    match sim7670g_check_signal env fuel sim.2 with
    | none => none
    | some sig =>
      let att := sim7670g_attach_gprs env sig.2
      if !att.1 then
        some (false, { att.2 with device_info := { att.2.device_info with state := SIM7670G_STATE_ERROR } })
      else
        let pdp := sim7670g_activate_pdp env att.2
        if !pdp.1 then
          some (false, { pdp.2 with device_info := { pdp.2.device_info with state := SIM7670G_STATE_ERROR } })
        else
          let http := sim7670g_send_command env pdp.2 (str "AT+HTTPINIT") (some (str "OK"))
          if !http.1 then some (false, http.2)
          else some (init_tail env http.2)

/-! ## HTTP Transfer: `sim7670g_https_post` (lines 636-704) -/

/-- `sim7670g_https_post(url, json_data, response_buffer, buffer_len)` with
non-null arguments (the function never uses `response_buffer`). -/
def sim7670g_https_post (env : Env) (st : St) (url json_data : Line) : Bool × St :=
  let cmd := (str "AT+HTTPPARA=\"URL\",\"" ++ url ++ str "\"").take 767
  let r1 := sim7670g_send_command env st cmd (some (str "OK"))
  if !r1.1 then (false, r1.2)
  else
    let r2 := sim7670g_send_command env r1.2
      (str "AT+HTTPPARA=\"CONTENT\",\"application/json\"") (some (str "OK"))
    if !r2.1 then (false, r2.2)
    else
      let cmd2 := (str "AT+HTTPDATA=" ++ str (toString json_data.length) ++ str ",10000").take 767
      let st3 := sim7670g_tx_string (sim7670g_tx_string (sim7670g_rx_flush r2.2) cmd2) (str "\r\n")
      match read_line_once env st3 with
      | none => (false, st3)
      | some response =>
        if !strstr response (str "DOWNLOAD") then (false, st3)
        else
          let st4 := sim7670g_tx_string st3 json_data
          let st5 := sim7670g_tx_string (sim7670g_rx_flush st4) (str "AT+HTTPACTION=1\r\n")
          match http_action_loop env (env.lines st5.xchg) with
          | none => (false, st5)
          | some (status, _) => (decide (status = 200), st5)

/-- The byte wait of the streaming read, in microseconds: the bound `100000ULL`
of the loop at line 521. -/
def BYTE_TIMEOUT_US : Nat := 100000

/-! ## The bot: `src/TelegramBot/TelegramBot.cpp` and `src/main.cpp` -/

/-- The bytes of a string literal of the source, in UTF-8. -/
def utf8 (s : String) : Line := s.toUTF8.data.toList.map UInt8.toNat

/-- The record `TelegramMessage`. -/
structure TelegramMessage where
  chat_id : Line
  text : Line
deriving DecidableEq, Repr

/-- The object `TelegramBot`: the token, the modem driver, the polling
bookkeeping, the queue of undelivered messages (front first) and the polling
interval.  The callback and the unused `waiting_response` are left out. -/
structure TelegramBot where
  bot_token : Line
  sim7670g : St
  last_update_id : Int
  last_poll_time : Nat
  message_queue : List TelegramMessage
  telegramPollInterval : Nat
deriving DecidableEq, Repr

/-- `TelegramBot::sendMessage(chat_id, text)` with non-null arguments. -/
def TelegramBot.sendMessage (env : Env) (bot : TelegramBot) (chat_id text : Line) :
    Bool × TelegramBot :=
  let json_buffer :=
    (str "\x7b\"chat_id\":\"" ++ chat_id ++ str "\",\"text\":\"" ++ text ++ str "\"\x7d").take 511
  let url := (str "https://api.telegram.org/bot" ++ bot.bot_token ++ str "/sendMessage").take 511
  let r := sim7670g_https_post env bot.sim7670g url json_buffer
  if r.1 then (true, { bot with sim7670g := r.2 })
  else
    (false, { bot with sim7670g := r.2, message_queue := bot.message_queue ++ [⟨chat_id, text⟩] })

/-- The loop `while (!message_queue.empty())` of `send_queued_messages`; one
unit of `fuel` per pass, `none` when the fuel runs out before the loop ends. -/
def send_queued_loop (env : Env) : Nat → TelegramBot → Option TelegramBot
  | 0, _ => none
  | fuel + 1, bot =>
    match bot.message_queue with
    | [] => some bot
    | msg :: _ =>
      let r := TelegramBot.sendMessage env bot msg.chat_id msg.text
      if r.1 then
        send_queued_loop env fuel { r.2 with message_queue := r.2.message_queue.tail }
      else some r.2

/-- `TelegramBot::send_queued_messages()`. -/
def TelegramBot.send_queued_messages (env : Env) (fuel : Nat) (bot : TelegramBot) :
    Option (Bool × TelegramBot) :=
  match send_queued_loop env fuel bot with
  | none => none
  | some b => some (b.message_queue.isEmpty, b)

/-- `TelegramBot::getLocation(lat, lon)`. -/
def TelegramBot.getLocation (env : Env) (bot : TelegramBot) : Option (ℚ × ℚ) × TelegramBot :=
  let r := sim7670g_gnss_get_location env bot.sim7670g
  (r.1, { bot with sim7670g := r.2 })

/-- `TelegramBot::enableActiveMode(enable)`. -/
def TelegramBot.enableActiveMode (bot : TelegramBot) (enable : Bool) : Bool × TelegramBot :=
  (true, { bot with telegramPollInterval := if enable then 2000 else 45000 })

/-- `escape_special_characters(input)` of `main.cpp`. -/
def escape_special_characters (input : Line) : Line :=
  input.flatMap (fun c =>
    if c = 10 then str "\\n"
    else if c = 9 then str "\\t"
    else if c = 13 then str "\\r"
    else if c = QUOTE then str "\\\""
    else if c = BACKSLASH then str "\\\\"
    else [c])

/-- `on_telegram_message(chat_id, text, username)` of `main.cpp`, acting on the
bot behind the global pointer `bot`.  `snprintf_location lat lon` is the text
the C library writes for the format of line 66 (already cut to 255 bytes). -/
def on_telegram_message (env : Env) (snprintf_location : ℚ → ℚ → Line)
    (authorized_users : List Line) (bot : TelegramBot) (chat_id text _username : Line) :
    TelegramBot :=
  let escaped_text := escape_special_characters text
  if chat_id ∉ authorized_users then bot
  else if escaped_text = str "/start" then
    (TelegramBot.sendMessage env bot chat_id
      (utf8 ("¡Hola! Soy tu bot en Raspberry Pi Pico W.\n" ++
        "Comandos disponibles:\n" ++
        "/start - Este mensaje\n" ++
        "/location - Obtener ubicación actual\n" ++
        "/activo - Estado activo del bot\n" ++
        "/lowEnergy - Modo de bajo consumo\n"))).2
  else if escaped_text = str "/location" then
    let r := TelegramBot.getLocation env bot
    match r.1 with
    | some (lat, lon) => (TelegramBot.sendMessage env r.2 chat_id (snprintf_location lat lon)).2
    | none =>
      (TelegramBot.sendMessage env r.2 chat_id
        (utf8 "No se pudo obtener la ubicación GNSS en este momento.")).2
  else if escaped_text = str "/activo" then
    (TelegramBot.sendMessage env (TelegramBot.enableActiveMode bot true).2 chat_id
      (utf8 "Modo activo activado. El bot responderá rápidamente a los comandos.")).2
  else if escaped_text = str "/lowEnergy" then
    (TelegramBot.sendMessage env (TelegramBot.enableActiveMode bot false).2 chat_id
      (utf8 "Modo de bajo consumo activado. Tiempos de respuesta más lentos.")).2
  else
    (TelegramBot.sendMessage env bot chat_id
      ((utf8 "Recibí tu mensaje: " ++ escaped_text ++
        utf8 "\nEnvía /start para ver los comandos.").take 255)).2

/-! ## Notions used to state the properties -/

/-- The bytes come before a line: they are whole lines that are empty once the
carriage returns are removed. -/
def BlankLines (p : List Nat) : Prop :=
  (∀ b ∈ p, b = CR ∨ b = LF) ∧ (p = [] ∨ p.getLast? = some LF)


/-- The state of the brace-balance scanning rule after some bytes: inside a
quoted string, next byte escaped, depth of open braces. -/
structure ScanState where
  in_string : Bool
  escape_next : Bool
  depth : Int
deriving DecidableEq, Repr

/-- One byte of the brace-balance scanning rule as the specification words it:
the quote flag is toggled by an unescaped quote, a backslash escapes exactly the
next byte, braces are counted only outside quoted strings.  With
`count_escaped = false` only unescaped braces are counted (the rule as the
testable property words it); with `count_escaped = true` a brace outside a
quoted string is counted whether or not a backslash precedes it. -/
def rule_step (count_escaped : Bool) (st : ScanState) (c : Nat) : ScanState :=
  let in_string := if c = QUOTE ∧ st.escape_next = false then !st.in_string else st.in_string
  let escape_next := decide (c = BACKSLASH ∧ st.escape_next = false)
  let counted := decide (in_string = false ∧ (count_escaped = true ∨ st.escape_next = false))
  let depth :=
    if counted = true ∧ c = LBRACE then st.depth + 1
    else if counted = true ∧ c = RBRACE then st.depth - 1
    else st.depth
  ⟨in_string, escape_next, depth⟩

/-- The depth of open braces after the bytes `t`, tracking started at the first
byte of `t`. -/
def rule_depth (count_escaped : Bool) (t : List Nat) : Int :=
  (t.foldl (rule_step count_escaped) ⟨false, false, 0⟩).depth

/-- The first opening brace of a C string: its offset among the bytes before
the terminator. -/
def first_brace (s : List Nat) : Option Nat :=
  let t := s.takeWhile (fun b => decide (b ≠ NUL))
  if LBRACE ∈ t then some (t.indexOf LBRACE) else none

/-- The span the scanning rule assigns to `s`: from the first opening brace to
the first byte at which the depth, tracked from that brace on, is back at zero;
`none` when there is no opening brace or the depth never returns to zero. -/
def balanced_span (count_escaped : Bool) (s : List Nat) : Option (Nat × Nat) :=
  match first_brace s with
  | none => none
  | some i =>
    match (List.range (s.length - i)).find?
        (fun k => decide (rule_depth count_escaped ((s.drop i).take (k + 1)) = 0)) with
    | none => none
    | some k => some (i, i + k)

/-- The conversion of a packed value `V` (format DDMM.mmmm) as the
specification words it: degrees `floor(V/100)`, minutes `V - degrees*100`,
decimal `degrees + minutes/60`. -/
def nmea_decimal (V : ℚ) : ℚ :=
  (Int.floor (V / 100) : ℚ) + (V - (Int.floor (V / 100) : ℚ) * 100) / 60

/-- The longitude letter held by `lon_dir` after the conversion: the fourth
field when it was converted, the initial `W` otherwise. -/
def lon_letter (sc : CgpsScan) : Nat :=
  if sc.parsed ≥ 4 then sc.lon_dir else 87

/-- The coordinate the specification assigns to a parsed summary line: the
decimal latitude, negated exactly for `S`; the negated decimal longitude,
negated again exactly for `W`. -/
def spec_coordinate (sc : CgpsScan) : ℚ × ℚ :=
  (if sc.lat_dir = 83 then -nmea_decimal sc.lat_raw else nmea_decimal sc.lat_raw,
   if lon_letter sc = 87 then - -nmea_decimal sc.lon_raw else -nmea_decimal sc.lon_raw)

/-- The first delivered line that contains the summary marker. -/
def first_summary_line (events : List (Option Line)) : Option Line :=
  events.reduceOption.find? (fun l => decide (str "+CGPSINFO:" <:+: l))

/-- The driver after the first steps of `sim7670g_init` (lines 725-741): state
set to initializing, echo off, SIM check. -/
def init_sim_step (env : Env) (st : St) : Bool × St :=
  sim7670g_check_sim env
    (sim7670g_send_command env
      { st with device_info := { st.device_info with state := SIM7670G_STATE_INITIALIZING } }
      (str "ATE0") (some (str "OK"))).2

/-- The driver after `n` more signal-quality queries that changed nothing but
the trace. -/
def csq_sent (st : St) (n : Nat) : St :=
  ⟨st.xchg + n, st.tx ++ List.replicate n (str "AT+CSQ\r\n"), st.device_info, st.pin_⟩

/-- The driver after `n` more signal-quality queries, the last reading being
`q`. -/
def csq_read (st : St) (n : Nat) (q : Int) : St :=
  ⟨st.xchg + n, st.tx ++ List.replicate n (str "AT+CSQ\r\n"),
    { st.device_info with signal_quality := q }, st.pin_⟩

/-- The first delivered line that contains `tok`. -/
def first_line_containing (tok : Line) (events : List (Option Line)) : Option Line :=
  events.reduceOption.find? (fun l => decide (tok <:+: l))

/-- The first of the first 10 delivered lines that contains `OK` or `ERROR`. -/
def first_verdict_line (events : List (Option Line)) : Option Line :=
  (events.reduceOption.take 10).find?
    (fun l => decide (str "OK" <:+: l) || decide (str "ERROR" <:+: l))

/-- The command that configures the URL of a POST. -/
def post_url_cmd (url : Line) : Line :=
  (str "AT+HTTPPARA=\"URL\",\"" ++ url ++ str "\"").take 767

/-- The command that sets the JSON content type. -/
def post_content_cmd : Line := str "AT+HTTPPARA=\"CONTENT\",\"application/json\""

/-- The data announcement for a body: its length in decimal digits. -/
def post_data_cmd (json_data : Line) : Line :=
  (str "AT+HTTPDATA=" ++ str (toString json_data.length) ++ str ",10000").take 767

/-- The URL `sendMessage` posts to. -/
def send_url (bot_token : Line) : Line :=
  (str "https://api.telegram.org/bot" ++ bot_token ++ str "/sendMessage").take 511

/-- The JSON body `sendMessage` posts for a message. -/
def send_json (chat_id text : Line) : Line :=
  (str "\x7b\"chat_id\":\"" ++ chat_id ++ str "\",\"text\":\"" ++ text ++ str "\"\x7d").take 511

/-- The POST `sendMessage` makes for the message `m` with the driver in state
`st`. -/
def post_of (env : Env) (tok : Line) (st : St) (m : TelegramMessage) : Bool × St :=
  sim7670g_https_post env st (send_url tok) (send_json m.chat_id m.text)

/-- Every message of the list is delivered, one after the other, each POST
starting from the driver the previous one left. -/
def posts_ok (env : Env) (tok : Line) : St → List TelegramMessage → Bool
  | _, [] => true
  | st, m :: ms => (post_of env tok st m).1 && posts_ok env tok (post_of env tok st m).2 ms

/-- The driver after the POSTs of the messages of the list, one after the
other. -/
def posts_state (env : Env) (tok : Line) : St → List TelegramMessage → St
  | st, [] => st
  | st, m :: ms => posts_state env tok (post_of env tok st m).2 ms

/-! ## Sample runs

Concrete modem behaviours on which the theorems are run. -/

/-- The driver before bring-up, with PIN `1234`. -/
def sample_st : St :=
  ⟨0, [], ⟨sim7670g_state_t.SIM7670G_STATE_IDLE, [], 0, false, false, false, false⟩, str "1234"⟩

/-- A body header as the modem sends it in front of the data. -/
def sample_header : List Nat := str "\r\n+HTTPREAD: DATA,50\r\n"

/-- A balanced JSON object of 40 bytes. -/
def sample_object : List Nat :=
  str "\x7b\"ok\":true,\"result\":[\x7b\"update_id\":101\x7d]\x7d"

/-- A modem that answers `OK` to the configuration commands, reports
`+HTTPACTION: 0,200,50` to the action and then sends the header and the 40-byte
object, followed by silence. -/
def sample_get_env : Env where
  lines := fun k => if k = 3 then [some (str "+HTTPACTION: 0,200,50")] else [some (str "OK")]
  bytes := fun _ => (sample_header ++ sample_object).map some ++ (List.replicate 51 none ++ [])
  sscanf_csq := fun _ => none
  sscanf_cgpsinfo := fun _ => ⟨0, 0, 0, 0, 0⟩
  sscanf_httpaction := fun _ => (200, 50)

/-- The summary line of the conversion example. -/
def sample_gps_line : Line := str "+CGPSINFO: 4916.45,N,12311.12,W"

/-- A modem that answers the position query with an `OK` line and then the
summary line `sample_gps_line`, converted as the C library converts it. -/
def sample_gps_env : Env where
  lines := fun _ => [none, some (str "OK"), some sample_gps_line]
  bytes := fun _ => []
  sscanf_csq := fun _ => none
  sscanf_cgpsinfo := fun _ => ⟨4, 4916.45, 78, 12311.12, 87⟩
  sscanf_httpaction := fun _ => (0, 0)

/-- A modem with the SIM ready and a signal of 20 that answers `ERROR` to the
GPRS attach (the fifth exchange) and `OK` to the other commands. -/
def sample_attach_fail_env : Env where
  lines := fun k =>
    if k = 5 then [some (str "ERROR")]
    else if k = 4 then [some (str "+CSQ: 20,99")]
    else if k = 2 ∨ k = 3 then [some (str "+CPIN: READY"), some (str "OK")]
    else [some (str "OK")]
  bytes := fun _ => []
  sscanf_csq := fun _ => some 20
  sscanf_cgpsinfo := fun _ => ⟨0, 0, 0, 0, 0⟩
  sscanf_httpaction := fun _ => (0, 0)

/-- A modem with the SIM ready and a signal of 20 that accepts the GPRS attach
and the PDP context and answers `ERROR` to `AT+HTTPINIT` (the eighth exchange). -/
def sample_http_fail_env : Env where
  lines := fun k =>
    if k = 8 then [some (str "ERROR")]
    else if k = 4 then [some (str "+CSQ: 20,99")]
    else if k = 2 ∨ k = 3 then [some (str "+CPIN: READY"), some (str "OK")]
    else [some (str "OK")]
  bytes := fun _ => []
  sscanf_csq := fun _ => some 20
  sscanf_cgpsinfo := fun _ => ⟨0, 0, 0, 0, 0⟩
  sscanf_httpaction := fun _ => (0, 0)

/-- A modem with the SIM ready and a signal of 20 that answers `OK` to every
other command and never reports a position. -/
def sample_ok_env : Env where
  lines := fun k =>
    if k = 4 then [some (str "+CSQ: 20,99")]
    else if k = 2 ∨ k = 3 then [some (str "+CPIN: READY"), some (str "OK")]
    else [some (str "OK")]
  bytes := fun _ => []
  sscanf_csq := fun _ => some 20
  sscanf_cgpsinfo := fun _ => ⟨0, 0, 0, 0, 0⟩
  sscanf_httpaction := fun _ => (0, 0)

/-- The driver of `sample_ok_env` when the signal check has returned. -/
def sample_sig_st : St :=
  ⟨4, [str "ATE0", str "\r\n", str "AT+CPIN?", str "\r\n", str "AT+CPIN?", str "\r\n",
      str "AT+CSQ\r\n"],
    ⟨sim7670g_state_t.SIM7670G_STATE_INITIALIZING, [], 20, true, false, false, false⟩, str "1234"⟩

/-- A modem that reports signal quality 99 to every query. -/
def sample_csq99_env : Env where
  lines := fun _ => [some (str "+CSQ: 99,99")]
  bytes := fun _ => []
  sscanf_csq := fun _ => some 99
  sscanf_cgpsinfo := fun _ => ⟨0, 0, 0, 0, 0⟩
  sscanf_httpaction := fun _ => (0, 0)

/-- A modem that reports signal quality 0 to every query. -/
def sample_csq0_env : Env where
  lines := fun _ => [some (str "+CSQ: 0,99")]
  bytes := fun _ => []
  sscanf_csq := fun _ => some 0
  sscanf_cgpsinfo := fun _ => ⟨0, 0, 0, 0, 0⟩
  sscanf_httpaction := fun _ => (0, 0)

/-- A modem that never sends anything. -/
def sample_silent_env : Env where
  lines := fun _ => []
  bytes := fun _ => []
  sscanf_csq := fun _ => none
  sscanf_cgpsinfo := fun _ => ⟨0, 0, 0, 0, 0⟩
  sscanf_httpaction := fun _ => (0, 0)

/-- A modem that accepts a POST: `OK` to the two configuration commands, the
`DOWNLOAD` prompt to the data announcement and `+HTTPACTION: 1,200,0` to the
action. -/
def sample_post_env : Env where
  lines := fun k =>
    if k = 3 then [some (str "DOWNLOAD")]
    else if k = 4 then [none, some (str "OK"), some (str "+HTTPACTION: 1,200,0")]
    else [some (str "OK")]
  bytes := fun _ => []
  sscanf_csq := fun _ => none
  sscanf_cgpsinfo := fun _ => ⟨0, 0, 0, 0, 0⟩
  sscanf_httpaction := fun _ => (200, 0)

/-- A bot with two undelivered messages in its queue. -/
def sample_bot : TelegramBot :=
  ⟨str "TOKEN", sample_st, 0, 0, [⟨str "111", str "first"⟩, ⟨str "111", str "second"⟩], 45000⟩

/-- The sample bot once its first message has been delivered through
`sample_post_env`: four exchanges used, the second message at the front. -/
def sample_bot_later : TelegramBot :=
  ⟨str "TOKEN", ⟨4, [], sample_st.device_info, str "1234"⟩, 0, 0, [⟨str "111", str "second"⟩],
    45000⟩
/-! # Theorems -/

/-! ## Command Engine: theorems -/

theorem strstr_iff_occurs (hay needle : Line) : strstr hay needle = true ↔ needle <:+: hay := by
  induction hay with
  | nil =>
    cases needle <;> simp [strstr]
  | cons c rest ih =>
    simp only [strstr, Bool.or_eq_true, ih, List.infix_cons_iff, List.isPrefixOf_iff_prefix]

theorem send_command_loop_token (tok : Line) (events : List (Option Line)) (n : Nat) :
    send_command_loop (some tok) events n = true ↔
      ∃ l ∈ (events.reduceOption).take (10 - n), tok <:+: l := by
  induction events generalizing n with
  | nil => simp [send_command_loop]
  | cons ev events ih =>
    unfold send_command_loop
    by_cases hn : n < 10
    · simp only [hn, if_true]
      cases ev with
      | none => simp [ih, List.reduceOption_cons_of_none]
      | some response =>
        obtain ⟨k, hk⟩ : ∃ k, 10 - n = k + 1 := ⟨9 - n, by omega⟩
        have hk2 : 10 - (n + 1) = k := by omega
        simp only [List.reduceOption_cons_of_some, hk, List.take_succ_cons, List.mem_cons,
          exists_eq_or_imp]
        by_cases hs : strstr response tok = true
        · simp [hs, (strstr_iff_occurs _ _).1 hs]
        · have hni : ¬ tok <:+: response := fun h => hs ((strstr_iff_occurs _ _).2 h)
          simp [hs, hni, ih, hk2]
    · have h0 : 10 - n = 0 := by omega
      simp [hn, h0]

/-- C1: with an expected token, `sim7670g_send_command` returns true exactly
when one of the first 10 lines delivered before the deadline contains the token
as a contiguous run of bytes; so it returns false when no line contains it, and
a first line `ERROR` does not stop the wait for a later line with the token. -/
theorem send_command_expected_iff (env : Env) (st : St) (cmd tok : Line) :
    ((sim7670g_send_command env st cmd (some tok)).1 = true ↔
        ∃ l ∈ ((env.lines (st.xchg + 1)).reduceOption).take 10, tok <:+: l) ∧
    ((∀ l ∈ (env.lines (st.xchg + 1)).reduceOption, ¬ tok <:+: l) →
        (sim7670g_send_command env st cmd (some tok)).1 = false) ∧
    (∀ l rest, env.lines (st.xchg + 1) = some (str "ERROR") :: some l :: rest → tok <:+: l →
        (sim7670g_send_command env st cmd (some tok)).1 = true) := by
  have key : (sim7670g_send_command env st cmd (some tok)).1 = true ↔
      ∃ l ∈ ((env.lines (st.xchg + 1)).reduceOption).take 10, tok <:+: l := by
    simp only [sim7670g_send_command, sim7670g_tx_string, sim7670g_rx_flush]
    exact send_command_loop_token tok _ 0
  refine ⟨key, ?_, ?_⟩
  · intro h
    rw [← Bool.not_eq_true, key]
    rintro ⟨l, hl, hin⟩
    exact h l (List.mem_of_mem_take hl) hin
  · intro l rest hev hin
    rw [key, hev]
    exact ⟨l, by simp [List.reduceOption_cons_of_some], hin⟩

/-- A run of C1: the reply `ERROR`, `+CPIN: READY` to a command waiting for
`READY`. -/
theorem send_command_expected_iff_witness :
    (sim7670g_send_command
      ⟨fun _ => [some (str "ERROR"), some (str "+CPIN: READY")], fun _ => [], fun _ => none,
        fun _ => ⟨0, 0, 0, 0, 0⟩, fun _ => (0, 0)⟩
      ⟨0, [], ⟨sim7670g_state_t.SIM7670G_STATE_IDLE, [], 0, false, false, false, false⟩, []⟩
      (str "AT+CPIN?") (some (str "READY"))).1 = true :=
  (send_command_expected_iff _ _ _ _).2.2 (str "+CPIN: READY") [] rfl (by decide)

/-! ## Line Reader: theorems -/

theorem read_line_inner_append (max_len : Int) (a b buf : List Nat) :
    read_line_inner max_len (a ++ b) buf =
      match read_line_inner max_len a buf with
      | Sum.inl (text, unread) => Sum.inl (text, unread ++ b)
      | Sum.inr buf2 => read_line_inner max_len b buf2 := by
  induction a generalizing buf with
  | nil => simp [read_line_inner]
  | cons c cs ih =>
    simp only [List.cons_append, read_line_inner]
    split_ifs <;> simp [ih]

theorem read_line_loop_flat (max_len : Int) (chunks : List (List Nat)) (buf : List Nat)
    (hok : (read_line_loop max_len chunks buf).ok = true) :
    ∃ text, (read_line_loop max_len chunks buf).line = text ++ [NUL] ∧
      read_line_inner max_len chunks.flatten buf =
        Sum.inl (text, (read_line_loop max_len chunks buf).rest.flatten) := by
  induction chunks generalizing buf with
  | nil => simp [read_line_loop] at hok
  | cons chunk chunks ih =>
    rw [List.flatten_cons, read_line_inner_append]
    unfold read_line_loop at hok ⊢
    cases hr : read_line_inner max_len chunk buf with
    | inl p =>
      obtain ⟨text, unread⟩ := p
      exact ⟨text, by simp⟩
    | inr buf2 =>
      rw [hr] at hok
      exact ih buf2 hok

theorem read_line_inner_spec (max_len : Int) (h2 : 2 ≤ max_len) (chunk : List Nat) :
    ∀ (cur buf text unread : List Nat),
      buf = (cur.filter (fun b => decide (b ≠ CR))).take (max_len - 1).toNat → LF ∉ cur →
      read_line_inner max_len chunk buf = Sum.inl (text, unread) →
      ∃ pre line, cur ++ chunk = pre ++ line ++ LF :: unread ∧ BlankLines pre ∧ LF ∉ line ∧
        text = (line.filter (fun b => decide (b ≠ CR))).take (max_len - 1).toNat ∧ text ≠ [] := by
  induction chunk with
  | nil => intro cur buf text unread _ _ h; simp [read_line_inner] at h
  | cons c cs ih =>
    intro cur buf text unread hbuf hcur h
    unfold read_line_inner at h
    by_cases hcr : c = CR
    · rw [if_pos hcr] at h
      obtain ⟨pre, line, h1, h2', h3, h4, h5⟩ := ih (cur ++ [c]) buf text unread
        (by simp [List.filter_append, hcr, hbuf])
        (by
          simp only [List.mem_append, List.mem_singleton, not_or]
          exact ⟨hcur, by rw [hcr]; decide⟩) h
      exact ⟨pre, line, by simpa using h1, h2', h3, h4, h5⟩
    · rw [if_neg hcr] at h
      by_cases hlf : c = LF
      · rw [if_pos hlf] at h
        by_cases hpos : buf.length > 0
        · rw [if_pos hpos] at h
          simp only [Sum.inl.injEq, Prod.mk.injEq] at h
          obtain ⟨rfl, rfl⟩ := h
          refine ⟨[], cur, by simp [hlf], ⟨by simp, Or.inl rfl⟩, hcur, hbuf, ?_⟩
          intro hnil
          simp [hnil] at hpos
        · rw [if_neg hpos] at h
          have hb : buf = [] := by
            cases buf with
            | nil => rfl
            | cons x xs => simp at hpos
          have hM : (max_len - 1).toNat ≠ 0 := by omega
          have hfil : cur.filter (fun b => decide (b ≠ CR)) = [] := by
            rw [hb] at hbuf
            rcases List.take_eq_nil_iff.1 hbuf.symm with h0 | h0
            · exact absurd h0 hM
            · exact h0
          have hallcr : ∀ b ∈ cur, b = CR := by
            intro b hbm
            by_contra hne
            have : b ∈ cur.filter (fun b => decide (b ≠ CR)) := by
              simp [List.mem_filter, hbm, hne]
            rw [hfil] at this
            simp at this
          obtain ⟨pre, line, h1, h2', h3, h4, h5⟩ := ih [] [] text unread (by simp) (by simp) h
          refine ⟨cur ++ [LF] ++ pre, line, ?_, ⟨?_, ?_⟩, h3, h4, h5⟩
          · simp only [List.nil_append] at h1
            simp [hlf, h1]
          · intro b hbm
            simp only [List.mem_append, List.mem_singleton] at hbm
            rcases hbm with (hbm | hbm) | hbm
            · exact Or.inl (hallcr b hbm)
            · exact Or.inr hbm
            · exact h2'.1 b hbm
          · right
            rcases h2'.2 with hp | hp
            · subst hp
              simp
            · rw [List.getLast?_append, hp]
              rfl
      · rw [if_neg hlf] at h
        have hfc : (cur ++ [c]).filter (fun b => decide (b ≠ CR)) =
            cur.filter (fun b => decide (b ≠ CR)) ++ [c] := by
          simp [List.filter_append, hcr]
        have hcur2 : LF ∉ cur ++ [c] := by
          simp only [List.mem_append, List.mem_singleton, not_or]
          exact ⟨hcur, fun hh => hlf hh.symm⟩
        by_cases hroom : (buf.length : Int) < max_len - 1
        · rw [if_pos hroom] at h
          have hlen : (cur.filter (fun b => decide (b ≠ CR))).length < (max_len - 1).toNat := by
            by_contra hge
            have : buf.length = (max_len - 1).toNat := by
              rw [hbuf, List.length_take]; omega
            omega
          obtain ⟨pre, line, h1, h2', h3, h4, h5⟩ := ih (cur ++ [c]) (buf ++ [c]) text unread
            (by
              rw [hfc, hbuf, List.take_of_length_le (by omega),
                List.take_of_length_le
                  (by rw [List.length_append, List.length_singleton]; omega)])
            hcur2 h
          exact ⟨pre, line, by simpa using h1, h2', h3, h4, h5⟩
        · rw [if_neg hroom] at h
          have hlen : (max_len - 1).toNat ≤ (cur.filter (fun b => decide (b ≠ CR))).length := by
            by_contra hlt
            have : buf.length = (cur.filter (fun b => decide (b ≠ CR))).length := by
              rw [hbuf, List.length_take]; omega
            omega
          obtain ⟨pre, line, h1, h2', h3, h4, h5⟩ := ih (cur ++ [c]) buf text unread
            (by rw [hfc, List.take_append_of_le_length hlen, hbuf])
            hcur2 h
          exact ⟨pre, line, by simpa using h1, h2', h3, h4, h5⟩

/-- C2: when `sim7670g_read_line_skip_empty` returns true with `max_len >= 2`,
the input splits as blank lines, then a line `line` that is not empty once its
carriage returns are removed, then the line feed, then `post`; the buffer holds
`line` without its carriage returns, cut to `max_len - 1` bytes and followed by
the terminator; that text is not empty and has no CR or LF byte; and the unread
input is exactly `post`, so what was cut off the line is not delivered later. -/
theorem read_line_true_spec (max_len : Int) (chunks : List (List Nat)) (h2 : 2 ≤ max_len)
    (hok : (sim7670g_read_line_skip_empty max_len chunks).ok = true) :
    ∃ pre line post text,
      chunks.flatten = pre ++ line ++ LF :: post ∧
      BlankLines pre ∧ LF ∉ line ∧ line.filter (fun b => decide (b ≠ CR)) ≠ [] ∧
      text = (line.filter (fun b => decide (b ≠ CR))).take (max_len - 1).toNat ∧
      (sim7670g_read_line_skip_empty max_len chunks).line = text ++ [NUL] ∧
      text ≠ [] ∧ CR ∉ text ∧ LF ∉ text ∧
      (sim7670g_read_line_skip_empty max_len chunks).rest.flatten = post := by
  unfold sim7670g_read_line_skip_empty at hok ⊢
  obtain ⟨text, hline, hinner⟩ := read_line_loop_flat max_len chunks [] hok
  obtain ⟨pre, line, h1, hb, hlf, htext, hne⟩ :=
    read_line_inner_spec max_len h2 chunks.flatten [] [] text _ (by simp) (by simp) hinner
  refine ⟨pre, line, _, text, by simpa using h1, hb, hlf, ?_, htext, hline, hne, ?_, ?_, rfl⟩
  · intro hnil
    rw [hnil] at htext
    simp at htext
    exact hne htext
  · intro hmem
    rw [htext] at hmem
    have := List.mem_of_mem_take hmem
    simp [List.mem_filter] at this
  · intro hmem
    rw [htext] at hmem
    have := List.mem_of_mem_take hmem
    exact hlf (List.mem_filter.1 this).1

/-- A run of C2: a blank line, then `ABCDEF` with `max_len = 5`. -/
theorem read_line_true_spec_witness :
    ∃ pre line post text,
      [[13, 10, 65], [66, 67, 13, 68, 69, 70, 13, 10, 71]].flatten = pre ++ line ++ LF :: post ∧
      BlankLines pre ∧ LF ∉ line ∧ line.filter (fun b => decide (b ≠ CR)) ≠ [] ∧
      text = (line.filter (fun b => decide (b ≠ CR))).take ((5 : Int) - 1).toNat ∧
      (sim7670g_read_line_skip_empty 5
        [[13, 10, 65], [66, 67, 13, 68, 69, 70, 13, 10, 71]]).line = text ++ [NUL] ∧
      text ≠ [] ∧ CR ∉ text ∧ LF ∉ text ∧
      (sim7670g_read_line_skip_empty 5
        [[13, 10, 65], [66, 67, 13, 68, 69, 70, 13, 10, 71]]).rest.flatten = post :=
  read_line_true_spec 5 [[13, 10, 65], [66, 67, 13, 68, 69, 70, 13, 10, 71]] (by decide)
    (by decide)


/-! ## Brace-balance scan: theorems -/

theorem strchr_eq_first_brace (s : List Nat) : strchr s LBRACE = first_brace s := by
  induction s with
  | nil => simp [strchr, first_brace]
  | cons x xs ih =>
    unfold strchr
    by_cases hx : x = LBRACE
    · subst hx
      simp [first_brace, LBRACE, NUL, List.takeWhile_cons]
    · rw [if_neg hx]
      by_cases h0 : x = NUL
      · subst h0
        simp [first_brace, List.takeWhile_cons]
      · rw [if_neg h0, ih]
        have hx' : ¬ LBRACE = x := fun h => hx h.symm
        simp only [first_brace, List.takeWhile_cons, h0, ne_eq, not_false_eq_true, decide_True,
          if_true, List.mem_cons, hx', false_or]
        by_cases hm : LBRACE ∈ List.takeWhile (fun b => decide (¬ b = NUL)) xs
        · rw [if_pos hm, if_pos hm, List.indexOf_cons_ne _ hx]
          rfl
        · rw [if_neg hm, if_neg hm]
          rfl

theorem strchr_some_drop (s : List Nat) (c i : Nat) (h : strchr s c = some i) :
    ∃ rest, s.drop i = c :: rest := by
  induction s generalizing i with
  | nil => simp [strchr] at h
  | cons x xs ih =>
    unfold strchr at h
    by_cases hx : x = c
    · rw [if_pos hx] at h
      simp only [Option.some.injEq] at h
      subst h
      exact ⟨xs, by simp [hx]⟩
    · rw [if_neg hx] at h
      by_cases h0 : x = NUL
      · simp [h0] at h
      · rw [if_neg h0] at h
        cases hr : strchr xs c with
        | none => simp [hr] at h
        | some k =>
          simp only [hr, Option.map_some', Option.some.injEq] at h
          subst h
          obtain ⟨rest, hrest⟩ := ih k hr
          exact ⟨rest, by simpa using hrest⟩

theorem find_range_succ (n : Nat) (P : Nat → Bool) :
    (List.range (n + 1)).find? P =
      if P 0 then some 0 else ((List.range n).find? (fun k => P (k + 1))).map (· + 1) := by
  rw [List.range_succ_eq_map, List.find?_cons]
  cases h : P 0
  · simp only [Bool.false_eq_true, if_false, List.find?_map]
    rfl
  · simp

theorem brace_scan_loop_cons (c : Nat) (rest : List Nat) (p : Nat) (st : ScanState)
    (hd : 1 ≤ st.depth) :
    brace_scan_loop (c :: rest) p st.depth st.in_string st.escape_next =
      if (rule_step true st c).depth = 0 then some p
      else brace_scan_loop rest (p + 1) (rule_step true st c).depth
        (rule_step true st c).in_string (rule_step true st c).escape_next := by
  obtain ⟨ins, esc, d⟩ := st
  simp only at hd
  have hd0 : ¬ d = 0 := by omega
  have hd1 : ¬ d + 1 = 0 := by omega
  by_cases hq : c = QUOTE
  · subst hq
    cases ins <;> cases esc <;>
      simp [brace_scan_loop, rule_step, QUOTE, LBRACE, RBRACE, BACKSLASH, hd0, hd1]
  · by_cases hl : c = LBRACE
    · subst hl
      cases ins <;> cases esc <;>
        simp [brace_scan_loop, rule_step, QUOTE, LBRACE, RBRACE, BACKSLASH, hd0, hd1]
    · by_cases hr : c = RBRACE
      · subst hr
        cases ins <;> cases esc <;>
          simp [brace_scan_loop, rule_step, QUOTE, LBRACE, RBRACE, BACKSLASH, hd0, hd1]
      · cases ins <;> cases esc <;>
          simp [brace_scan_loop, rule_step, hq, hl, hr, hd0, hd1]

theorem rule_step_depth_ge (b : Bool) (st : ScanState) (c : Nat) :
    st.depth - 1 ≤ (rule_step b st c).depth := by
  simp only [rule_step]
  split_ifs <;> omega

theorem brace_scan_loop_spec (suf : List Nat) :
    ∀ (st : ScanState) (p : Nat), 1 ≤ st.depth →
      brace_scan_loop suf p st.depth st.in_string st.escape_next =
        ((List.range suf.length).find?
          (fun k => decide (((suf.take (k + 1)).foldl (rule_step true) st).depth = 0))).map
          (p + ·) := by
  induction suf with
  | nil => intro st p _; simp [brace_scan_loop]
  | cons c rest ih =>
    intro st p hd
    rw [List.length_cons, find_range_succ, brace_scan_loop_cons c rest p st hd]
    have hge := rule_step_depth_ge true st c
    by_cases hz : (rule_step true st c).depth = 0
    · simp [hz]
    · have hd1 : 1 ≤ (rule_step true st c).depth := by omega
      rw [ih (rule_step true st c) (p + 1) hd1]
      simp only [hz, if_false, List.take_succ_cons, List.foldl_cons, List.take_zero,
        List.foldl_nil, decide_False, Bool.false_eq_true]
      cases (List.range rest.length).find?
          (fun k => decide (((rest.take (k + 1)).foldl (rule_step true)
            (rule_step true st c)).depth = 0)) with
      | none => simp
      | some k => simp; omega

theorem brace_scan_eq_balanced_span (s : List Nat) : brace_scan s = balanced_span true s := by
  unfold brace_scan balanced_span
  rw [← strchr_eq_first_brace]
  cases hi : strchr s LBRACE with
  | none => rfl
  | some i =>
    obtain ⟨rest, hrest⟩ := strchr_some_drop s LBRACE i hi
    have hlen : s.length - i = rest.length + 1 := by
      have := congrArg List.length hrest
      simpa using this
    simp only [hrest, hlen]
    rw [find_range_succ]
    have h1 : brace_scan_loop (LBRACE :: rest) i 0 false false =
        brace_scan_loop rest (i + 1) 1 false false := by
      simp [brace_scan_loop, LBRACE, QUOTE, BACKSLASH]
    have h2 := brace_scan_loop_spec rest ⟨false, false, 1⟩ (i + 1) (by simp)
    simp only at h2
    rw [h1, h2]
    have h3 : rule_depth true ((LBRACE :: rest).take (0 + 1)) = 1 := by
      simp [rule_depth, rule_step, LBRACE, QUOTE, BACKSLASH]
    have h4 : ∀ k, rule_depth true ((LBRACE :: rest).take (k + 1 + 1)) =
        ((rest.take (k + 1)).foldl (rule_step true) ⟨false, false, 1⟩).depth := by
      intro k
      simp [rule_depth, rule_step, LBRACE, QUOTE, BACKSLASH, List.take_succ_cons]
    simp only [h3, h4]
    cases (List.range rest.length).find?
        (fun k => decide (((rest.take (k + 1)).foldl (rule_step true) ⟨false, false, 1⟩).depth = 0))
      with
    | none => simp
    | some k => simp; omega

theorem brace_scan_loop_some (suf : List Nat) :
    ∀ (p : Nat) (d : Int) (ins esc : Bool) (j : Nat),
      brace_scan_loop suf p d ins esc = some j → p ≤ j ∧ suf[j - p]? = some RBRACE := by
  induction suf with
  | nil => intro p d ins esc j h; simp [brace_scan_loop] at h
  | cons c rest ih =>
    intro p d ins esc j h
    have hrec : ∀ d1 ins1 esc1, brace_scan_loop rest (p + 1) d1 ins1 esc1 = some j →
        p ≤ j ∧ (c :: rest)[j - p]? = some RBRACE := by
      intro d1 ins1 esc1 h1
      obtain ⟨hle, hget⟩ := ih (p + 1) d1 ins1 esc1 j h1
      have hjp : j - p = (j - (p + 1)) + 1 := by omega
      exact ⟨by omega, by rw [hjp, List.getElem?_cons_succ]; exact hget⟩
    unfold brace_scan_loop at h
    simp only at h
    split_ifs at h with h1 h2 h3 h4 h5 h6 h7 h8
    all_goals
      first
      | exact hrec _ _ _ h
      | (simp only [Option.some.injEq] at h
         subst h
         exact ⟨le_refl _, by
           simp only [Nat.sub_self, List.getElem?_cons_zero, Option.some.injEq]
           assumption⟩)

theorem brace_scan_some_props (s : List Nat) (i j : Nat) (h : brace_scan s = some (i, j)) :
    i < j ∧ j < s.length ∧ s[i]? = some LBRACE ∧ s[j]? = some RBRACE ∧
      strchr s LBRACE = some i := by
  unfold brace_scan at h
  cases hi : strchr s LBRACE with
  | none => simp [hi] at h
  | some i0 =>
    rw [hi] at h
    simp only at h
    obtain ⟨rest, hrest⟩ := strchr_some_drop s LBRACE i0 hi
    have h1 : brace_scan_loop (LBRACE :: rest) i0 0 false false =
        brace_scan_loop rest (i0 + 1) 1 false false := by
      simp [brace_scan_loop, LBRACE, QUOTE, BACKSLASH]
    rw [hrest, h1] at h
    cases hl : brace_scan_loop rest (i0 + 1) 1 false false with
    | none => simp [hl] at h
    | some j0 =>
      rw [hl] at h
      simp only [Option.some.injEq, Prod.mk.injEq] at h
      obtain ⟨rfl, rfl⟩ := h
      obtain ⟨hle, hget⟩ := brace_scan_loop_some rest (i0 + 1) 1 false false j0 hl
      have hsi : s[i0]? = some LBRACE := by
        have := congrArg (fun l => l[0]?) hrest
        simpa [List.getElem?_drop] using this
      have hsj : s[j0]? = some RBRACE := by
        have := congrArg (fun l => l[j0 - i0]?) hrest
        have hjp : j0 - i0 = (j0 - (i0 + 1)) + 1 := by omega
        simp only [List.getElem?_drop] at this
        rw [show i0 + (j0 - i0) = j0 by omega] at this
        rw [this, hjp, List.getElem?_cons_succ]
        exact hget
      refine ⟨by omega, ?_, hsi, hsj, rfl⟩
      by_contra hlen
      rw [List.getElem?_eq_none (by omega)] at hsj
      simp at hsj

/-- C3 (as stated, refuted): in the four bytes `LBRACE BACKSLASH RBRACE RBRACE`
the only unescaped closing brace outside quotes is the last one, so the span of
the rule that counts unescaped braces is bytes 0 to 3; the scan of the code ends
the span at the escaped brace, byte 2.  And in `LBRACE BACKSLASH RBRACE` the
depth of that rule never returns to zero, yet the scan yields a span. -/
theorem brace_scan_escaped_brace_counterexample :
    (balanced_span false [123, 92, 125, 125] = some (0, 3) ∧
      brace_scan [123, 92, 125, 125] = some (0, 2)) ∧
    (balanced_span false [123, 92, 125] = none ∧ brace_scan [123, 92, 125] = some (0, 2)) := by
  decide

/-- C3 (amended): for every byte string the scan yields exactly the span of the
scanning rule in which a brace outside a quoted string is counted whether or not
a backslash precedes it, quote and escape tracking starting at the first opening
brace: from that brace to the first byte where the depth is back at zero, and no
span when there is no opening brace or the depth never returns to zero.  A span
starts at an opening brace, the first one, and ends at a later closing brace. -/
theorem brace_scan_is_balanced_span (s : List Nat) :
    brace_scan s = balanced_span true s ∧
    (∀ i j, brace_scan s = some (i, j) →
      i < j ∧ j < s.length ∧ s[i]? = some LBRACE ∧ s[j]? = some RBRACE ∧
      first_brace s = some i ∧
      rule_depth true ((s.drop i).take (j - i + 1)) = 0 ∧
      ∀ k, k < j - i → rule_depth true ((s.drop i).take (k + 1)) ≠ 0) ∧
    (brace_scan s = none →
      first_brace s = none ∨ ∃ i, first_brace s = some i ∧
        ∀ k, k < s.length - i → rule_depth true ((s.drop i).take (k + 1)) ≠ 0) := by
  have heq := brace_scan_eq_balanced_span s
  refine ⟨heq, ?_, ?_⟩
  · intro i j h
    obtain ⟨h1, h2, h3, h4, h5⟩ := brace_scan_some_props s i j h
    rw [strchr_eq_first_brace] at h5
    refine ⟨h1, h2, h3, h4, h5, ?_⟩
    rw [heq] at h
    unfold balanced_span at h
    rw [h5] at h
    simp only at h
    cases hf : (List.range (s.length - i)).find?
        (fun k => decide (rule_depth true ((s.drop i).take (k + 1)) = 0)) with
    | none => simp [hf] at h
    | some k0 =>
      rw [hf] at h
      simp only [Option.some.injEq, Prod.mk.injEq, true_and] at h
      have hk0 : j - i = k0 := by omega
      rw [hk0]
      have hsome := List.find?_some hf
      refine ⟨by simpa using hsome, ?_⟩
      intro k hk
      rw [List.find?_range_eq_some] at hf
      have := hf.2.2 k hk
      simpa using this
  · intro h
    rw [heq] at h
    unfold balanced_span at h
    cases hb : first_brace s with
    | none => exact Or.inl rfl
    | some i =>
      right
      refine ⟨i, rfl, ?_⟩
      rw [hb] at h
      simp only at h
      cases hf : (List.range (s.length - i)).find?
          (fun k => decide (rule_depth true ((s.drop i).take (k + 1)) = 0)) with
      | some k0 => simp [hf] at h
      | none =>
        intro k hk
        rw [List.find?_eq_none] at hf
        have := hf k (List.mem_range.2 hk)
        simpa using this

/-! ## HTTP Transfer: theorems -/

theorem send_command_xchg (env : Env) (st : St) (cmd : Line) (e : Option Line) :
    (sim7670g_send_command env st cmd e).2.xchg = st.xchg + 1 := by
  simp [sim7670g_send_command, sim7670g_tx_string, sim7670g_rx_flush]

theorem https_get_request_xchg (env : Env) (st : St) (url : Line) (n : Int)
    (h : (https_get_request env st url).1 = some n) :
    (https_get_request env st url).2.xchg = st.xchg + 3 ∧ 0 < n := by
  revert h
  unfold https_get_request
  simp only
  split_ifs with h1
  · simp
  · generalize http_action_loop env _ = a
    cases a with
    | none => simp
    | some p =>
      obtain ⟨status, length⟩ := p
      simp only
      split_ifs with h2
      · simp
      · intro h
        simp only [Option.some.injEq] at h
        subst h
        simp only [sim7670g_tx_string, sim7670g_rx_flush, send_command_xchg]
        simp only [Bool.or_eq_true, Bool.not_eq_true', decide_eq_false_iff_not, decide_eq_true_eq,
          not_or, not_not, not_le] at h2
        exact ⟨trivial, h2.2⟩

theorem https_get_eq_extract (env : Env) (st : St) (url : Line) (buffer_len n : Int)
    (h : (https_get_request env st url).1 = some n) :
    (sim7670g_https_get env st url buffer_len).1 =
      https_extract (https_stream_loop buffer_len (env.bytes (st.xchg + 4)) [] 0).1 := by
  have hx := (https_get_request_xchg env st url n h).1
  unfold sim7670g_https_get
  rcases hr : https_get_request env st url with ⟨o, st1⟩
  rw [hr] at h hx
  simp only at h hx
  subst h
  simp only [sim7670g_tx_string, sim7670g_rx_flush, hx]

theorem strchr_some_not_mem (s : List Nat) (c i : Nat) (h : strchr s c = some i) :
    c ∉ s.take i := by
  induction s generalizing i with
  | nil => simp
  | cons x xs ih =>
    unfold strchr at h
    split_ifs at h with h1 h2
    · simp only [Option.some.injEq] at h
      subst h
      simp
    · cases hr : strchr xs c with
      | none => simp [hr] at h
      | some k =>
        simp only [hr, Option.map_some', Option.some.injEq] at h
        subst h
        simp only [List.take_succ_cons, List.mem_cons, not_or]
        exact ⟨fun hh => h1 hh.symm, ih k hr⟩

theorem https_extract_some (buf : List Nat) (i j : Nat) (h : brace_scan buf = some (i, j)) :
    https_extract buf = ⟨true, (buf.drop i).take (j - i + 1) ++ [NUL]⟩ := by
  have hij := (brace_scan_some_props buf i j h).1
  simp [https_extract, h, hij]

theorem https_stream_loop_byte (buffer_len : Int) (c : Nat) (events : List (Option Nat))
    (buf : List Nat) (n : Int) :
    https_stream_loop buffer_len (some c :: events) buf n =
      if (buf.length : Int) < buffer_len - 1 then
        https_stream_loop buffer_len events (buf ++ [c]) 0
      else (buf, StreamExit.capacity) := by
  rw [https_stream_loop]

theorem https_stream_loop_timeout (buffer_len : Int) (events : List (Option Nat))
    (buf : List Nat) (n : Int) :
    https_stream_loop buffer_len (none :: events) buf n =
      if (buf.length : Int) < buffer_len - 1 then
        if n + 1 > 50 then
          if (brace_scan buf).isSome then (buf, StreamExit.json_complete)
          else if n + 1 > 200 then (buf, StreamExit.silence)
          else https_stream_loop buffer_len events buf (n + 1)
        else https_stream_loop buffer_len events buf (n + 1)
      else (buf, StreamExit.capacity) := by
  rw [https_stream_loop]

theorem https_stream_loop_received (buffer_len : Int) (events : List (Option Nat)) :
    ∀ (buf : List Nat) (n : Int),
      ∃ t, (https_stream_loop buffer_len events buf n).1 = buf ++ t ∧
        t <+: events.reduceOption := by
  induction events with
  | nil =>
    intro buf n
    refine ⟨[], ?_, by simp⟩
    unfold https_stream_loop
    split_ifs <;> simp
  | cons ev events ih =>
    intro buf n
    cases ev with
    | some c =>
      rw [https_stream_loop_byte]
      split_ifs with h1
      · obtain ⟨t, ht, hp⟩ := ih (buf ++ [c]) 0
        refine ⟨c :: t, by simpa using ht, ?_⟩
        rw [List.reduceOption_cons_of_some]
        exact (List.prefix_cons_inj c).2 hp
      · exact ⟨[], by simp, List.nil_prefix⟩
    | none =>
      rw [https_stream_loop_timeout, List.reduceOption_cons_of_none]
      split_ifs
      all_goals
        first
        | exact ih buf (n + 1)
        | exact ⟨[], (List.append_nil buf).symm, List.nil_prefix⟩

/-- C4: once the request phase has gone through (status 200, positive declared
length), with `received` the bytes the streaming loop stored (a prefix of the
bytes that arrived): the call returns true exactly when the scanning rule finds
a balanced span in `received`; then `received` splits as `before ++ object ++
after` with `object` the bytes from the first opening brace through the closing
brace that brings the depth back to zero, and the buffer holds `object`
followed by the terminator; and when there is no balanced span the call returns
false. -/
theorem https_get_true_iff_balanced (env : Env) (st : St) (url : Line) (buffer_len n : Int)
    (hreq : (https_get_request env st url).1 = some n) :
    (https_stream_loop buffer_len (env.bytes (st.xchg + 4)) [] 0).1 <+:
      (env.bytes (st.xchg + 4)).reduceOption ∧
    ((sim7670g_https_get env st url buffer_len).1.ok = true ↔
      ∃ span, balanced_span true (https_stream_loop buffer_len (env.bytes (st.xchg + 4)) [] 0).1
        = some span) ∧
    (∀ i j, balanced_span true (https_stream_loop buffer_len (env.bytes (st.xchg + 4)) [] 0).1
        = some (i, j) →
      ∃ before object after,
        (https_stream_loop buffer_len (env.bytes (st.xchg + 4)) [] 0).1
          = before ++ object ++ after ∧
        before.length = i ∧ object.length = j - i + 1 ∧ LBRACE ∉ before ∧
        object.head? = some LBRACE ∧ object.getLast? = some RBRACE ∧
        (sim7670g_https_get env st url buffer_len).1 = ⟨true, object ++ [NUL]⟩) ∧
    (balanced_span true (https_stream_loop buffer_len (env.bytes (st.xchg + 4)) [] 0).1 = none →
      (sim7670g_https_get env st url buffer_len).1.ok = false) := by
  simp only [← brace_scan_eq_balanced_span]
  refine ⟨?_, ?_⟩
  · obtain ⟨t, ht, hp⟩ := https_stream_loop_received buffer_len (env.bytes (st.xchg + 4)) [] 0
    rw [ht]
    simpa using hp
  · rw [https_get_eq_extract env st url buffer_len n hreq]
    generalize (https_stream_loop buffer_len (env.bytes (st.xchg + 4)) [] 0).1 = received
    refine ⟨?_, ?_, ?_⟩
    · cases h : brace_scan received with
      | none => simp [https_extract, h]
      | some sp =>
        obtain ⟨i, j⟩ := sp
        rw [https_extract_some _ _ _ h]
        simp
    · intro i j h
      rw [https_extract_some _ _ _ h]
      obtain ⟨hij, hj, hi0, hj0, hchr⟩ := brace_scan_some_props received i j h
      refine ⟨received.take i, (received.drop i).take (j - i + 1),
        (received.drop i).drop (j - i + 1), ?_, ?_, ?_, ?_, ?_, ?_, rfl⟩
      · rw [List.append_assoc, List.take_append_drop, List.take_append_drop]
      · rw [List.length_take]; omega
      · rw [List.length_take, List.length_drop]; omega
      · exact strchr_some_not_mem received LBRACE i hchr
      · rw [List.head?_take, if_neg (by omega), List.head?_drop]
        exact hi0
      · rw [List.getLast?_eq_getElem?, List.length_take, List.length_drop,
          List.getElem?_take_of_lt (by omega), List.getElem?_drop]
        rw [show i + (min (j - i + 1) (received.length - i) - 1) = j by omega]
        exact hj0
    · intro h
      simp [https_extract, h]

theorem https_stream_loop_bytes (buffer_len : Int) (rest : List (Option Nat)) (bs : List Nat) :
    ∀ (c : Nat) (buf : List Nat) (n : Int),
      (buf.length : Int) + (bs.length + 1) ≤ buffer_len - 1 →
      https_stream_loop buffer_len ((c :: bs).map some ++ rest) buf n =
        https_stream_loop buffer_len rest (buf ++ c :: bs) 0 := by
  induction bs with
  | nil =>
    intro c buf n h
    simp only [List.map_cons, List.map_nil, List.cons_append, List.nil_append,
      https_stream_loop_byte]
    rw [if_pos (by simp at h; omega)]
  | cons b bs ih =>
    intro c buf n h
    simp only [List.length_cons, Nat.cast_add, Nat.cast_one] at h
    have := ih b (buf ++ [c]) 0 (by simp; omega)
    simp only [List.map_cons, List.cons_append, https_stream_loop_byte] at this ⊢
    rw [if_pos (by omega)]
    simpa using this

theorem https_stream_loop_silence (buffer_len : Int) (rest : List (Option Nat)) (buf : List Nat)
    (hroom : (buf.length : Int) < buffer_len - 1) (hscan : (brace_scan buf).isSome = true)
    (k : Nat) :
    ∀ (n : Int), n ≤ 50 → 51 ≤ n + k →
      https_stream_loop buffer_len (List.replicate k none ++ rest) buf n =
        (buf, StreamExit.json_complete) := by
  induction k with
  | zero => intro n h1 h2; simp at h2; omega
  | succ k ih =>
    intro n h1 h2
    rw [List.replicate_succ, List.cons_append, https_stream_loop_timeout, if_pos hroom]
    by_cases h50 : n + 1 > 50
    · rw [if_pos h50, if_pos hscan]
    · rw [if_neg h50]
      exact ih (n + 1) (by omega) (by push_cast at h2 ⊢; omega)

theorem strchr_append_left (pre s : List Nat) (c : Nat) (h1 : c ∉ pre) (h2 : NUL ∉ pre) :
    strchr (pre ++ s) c = (strchr s c).map (pre.length + ·) := by
  induction pre with
  | nil => cases h : strchr s c <;> simp [h]
  | cons x xs ih =>
    simp only [List.mem_cons, not_or] at h1 h2
    rw [List.cons_append, strchr, if_neg (fun h => h1.1 h.symm), if_neg (fun h => h2.1 h.symm),
      ih h1.2 h2.2]
    cases strchr s c with
    | none => simp
    | some k => simp; omega

theorem brace_scan_loop_shift (q : Nat) (suf : List Nat) :
    ∀ (p : Nat) (d : Int) (ins esc : Bool),
      brace_scan_loop suf (q + p) d ins esc = (brace_scan_loop suf p d ins esc).map (q + ·) := by
  induction suf with
  | nil => intro p d ins esc; simp [brace_scan_loop]
  | cons c rest ih =>
    intro p d ins esc
    simp only [brace_scan_loop]
    split_ifs <;> simp [← ih, Nat.add_assoc]

theorem brace_scan_append_left (pre s : List Nat) (h1 : LBRACE ∉ pre) (h2 : NUL ∉ pre) :
    brace_scan (pre ++ s) =
      (brace_scan s).map (fun sp => (pre.length + sp.1, pre.length + sp.2)) := by
  unfold brace_scan
  rw [strchr_append_left pre s LBRACE h1 h2]
  cases hi : strchr s LBRACE with
  | none => simp
  | some i =>
    simp only [Option.map_some', List.drop_append, List.drop_of_length_le (Nat.le_add_right _ _),
      List.drop_length, List.nil_append, Nat.add_sub_cancel_left, brace_scan_loop_shift]
    cases brace_scan_loop (List.drop i s) i 0 false false <;> simp

/-- C5: after an action result `200, 50`, when the bytes that arrive are a
header without an opening brace followed by a balanced object of 40 bytes (the
depth of the scanning rule returns to zero at its last byte), each within its
byte wait, and then 51 byte waits time out, the streaming loop ends
through the completeness scan (not by the deadline, the capacity or the silence
limit) having stored only the header and the 40 bytes, and the call returns true
with the buffer holding exactly the object and the terminator. -/
theorem https_get_early_exit (env : Env) (st : St) (url : Line) (buffer_len : Int)
    (header object : List Nat) (later : List (Option Nat))
    (hreq : (https_get_request env st url).1 = some 50)
    (hhdr : LBRACE ∉ header ∧ NUL ∉ header)
    (hobj : object.length = 40 ∧ balanced_span true object = some (0, 39))
    (hbytes : env.bytes (st.xchg + 4) =
      (header ++ object).map some ++ (List.replicate 51 none ++ later))
    (hcap : (header.length : Int) + 40 < buffer_len - 1) :
    https_stream_loop buffer_len (env.bytes (st.xchg + 4)) [] 0 =
      (header ++ object, StreamExit.json_complete) ∧
    (sim7670g_https_get env st url buffer_len).1 = ⟨true, object ++ [NUL]⟩ := by
  obtain ⟨c, bs, hcb⟩ : ∃ c bs, header ++ object = c :: bs := by
    cases hh : header ++ object with
    | nil =>
      have := congrArg List.length hh
      simp [hobj.1] at this
    | cons c bs => exact ⟨c, bs, rfl⟩
  have hlen : (header ++ object).length = header.length + 40 := by simp [hobj.1]
  have hscan : brace_scan (header ++ object) = some (header.length, header.length + 39) := by
    rw [brace_scan_append_left header object hhdr.1 hhdr.2, brace_scan_eq_balanced_span,
      hobj.2]
    simp
  have hloop : https_stream_loop buffer_len (env.bytes (st.xchg + 4)) [] 0 =
      (header ++ object, StreamExit.json_complete) := by
    rw [hbytes, hcb, https_stream_loop_bytes buffer_len _ bs c [] 0
      (by
        have : (c :: bs).length = header.length + 40 := by rw [← hcb, hlen]
        simp only [List.length_cons] at this
        simp only [List.length_nil]
        push_cast
        omega)]
    rw [List.nil_append, ← hcb]
    exact https_stream_loop_silence buffer_len later (header ++ object)
      (by rw [hlen]; push_cast; omega) (by rw [hscan]; rfl) 51 0 (by omega) (by omega)
  refine ⟨hloop, ?_⟩
  rw [https_get_eq_extract env st url buffer_len 50 hreq, hloop]
  simp only
  rw [https_extract_some _ _ _ hscan, List.drop_append_of_le_length (le_refl _)]
  simp [hobj.1, List.take_of_length_le]

/-- A run of C4: the sample GET returns true, the scan finding a span in the
received bytes. -/
theorem https_get_true_iff_balanced_witness :
    ((sim7670g_https_get sample_get_env sample_st (str "http://example.org/u") 4096).1.ok = true ↔
      ∃ span, balanced_span true (https_stream_loop 4096
        (sample_get_env.bytes (sample_st.xchg + 4)) [] 0).1 = some span) :=
  (https_get_true_iff_balanced sample_get_env sample_st (str "http://example.org/u") 4096 50
    (by decide)).2.1

/-- A run of C5 on the sample GET. -/
theorem https_get_early_exit_witness :
    https_stream_loop 4096 (sample_get_env.bytes (sample_st.xchg + 4)) [] 0 =
      (sample_header ++ sample_object, StreamExit.json_complete) ∧
    (sim7670g_https_get sample_get_env sample_st (str "http://example.org/u") 4096).1 =
      ⟨true, sample_object ++ [NUL]⟩ :=
  https_get_early_exit sample_get_env sample_st (str "http://example.org/u") 4096
    sample_header sample_object [] (by decide) (by decide) (by decide) rfl (by decide)

/-! ## GNSS Locator: theorems -/

theorem gnss_location_loop_first (env : Env) (events : List (Option Line)) :
    gnss_location_loop env events =
      match first_summary_line events with
      | none => none
      | some l => gnss_convert (env.sscanf_cgpsinfo l) := by
  induction events with
  | nil => simp [gnss_location_loop, first_summary_line]
  | cons ev events ih =>
    cases ev with
    | none =>
      rw [gnss_location_loop, ih]
      simp [first_summary_line, List.reduceOption_cons_of_none]
    | some response =>
      rw [gnss_location_loop]
      by_cases hs : strstr response (str "+CGPSINFO:") = true
      · have hin := (strstr_iff_occurs _ _).1 hs
        simp [first_summary_line, List.reduceOption_cons_of_some, hs, hin]
      · have hin : ¬ str "+CGPSINFO:" <:+: response := fun h => hs ((strstr_iff_occurs _ _).2 h)
        rw [if_neg hs, ih]
        simp [first_summary_line, List.reduceOption_cons_of_some, hin]

theorem c_int_cast_of_pos (x : ℚ) (h : 0 < x) : c_int_cast x = Int.floor x := by
  simp [c_int_cast, le_of_lt h]

theorem gnss_convert_iff (sc : CgpsScan) (c : ℚ × ℚ) :
    gnss_convert sc = some c ↔
      3 ≤ sc.parsed ∧ 0 < sc.lat_raw ∧ 0 < sc.lon_raw ∧ c = spec_coordinate sc ∧
        |c.1| ≤ 90 ∧ |c.2| ≤ 180 := by
  unfold gnss_convert
  by_cases hp : 3 ≤ sc.parsed
  · have h1 : sc.parsed ≥ 1 := by omega
    have h2 : sc.parsed ≥ 2 := by omega
    have h3 : sc.parsed ≥ 3 := hp
    simp only [h1, h2, h3, if_true, true_and]
    by_cases hpos : sc.lat_raw > 0 ∧ sc.lon_raw > 0
    · have hlat : 0 < sc.lat_raw / 100 := by have := hpos.1; positivity
      have hlon : 0 < sc.lon_raw / 100 := by have := hpos.2; positivity
      rw [if_pos hpos, c_int_cast_of_pos _ hlat, c_int_cast_of_pos _ hlon]
      have hc : spec_coordinate sc =
          (if sc.lat_dir = 83 then
              -((Int.floor (sc.lat_raw / 100) : ℚ) +
                (sc.lat_raw - (Int.floor (sc.lat_raw / 100) : ℚ) * 100) / 60)
            else (Int.floor (sc.lat_raw / 100) : ℚ) +
                (sc.lat_raw - (Int.floor (sc.lat_raw / 100) : ℚ) * 100) / 60,
           if (if sc.parsed ≥ 4 then sc.lon_dir else 87) = 87 then
              - -((Int.floor (sc.lon_raw / 100) : ℚ) +
                (sc.lon_raw - (Int.floor (sc.lon_raw / 100) : ℚ) * 100) / 60)
            else -((Int.floor (sc.lon_raw / 100) : ℚ) +
                (sc.lon_raw - (Int.floor (sc.lon_raw / 100) : ℚ) * 100) / 60)) := by
        simp [spec_coordinate, nmea_decimal, lon_letter]
      rw [hc]
      generalize (if sc.lat_dir = 83 then
              -((Int.floor (sc.lat_raw / 100) : ℚ) +
                (sc.lat_raw - (Int.floor (sc.lat_raw / 100) : ℚ) * 100) / 60)
            else (Int.floor (sc.lat_raw / 100) : ℚ) +
                (sc.lat_raw - (Int.floor (sc.lat_raw / 100) : ℚ) * 100) / 60) = flat
      generalize (if (if sc.parsed ≥ 4 then sc.lon_dir else 87) = 87 then
              - -((Int.floor (sc.lon_raw / 100) : ℚ) +
                (sc.lon_raw - (Int.floor (sc.lon_raw / 100) : ℚ) * 100) / 60)
            else -((Int.floor (sc.lon_raw / 100) : ℚ) +
                (sc.lon_raw - (Int.floor (sc.lon_raw / 100) : ℚ) * 100) / 60)) = flon
      simp only [hpos.1, hpos.2, true_and, abs_le]
      by_cases hr : flat ≥ -90 ∧ flat ≤ 90 ∧ flon ≥ -180 ∧ flon ≤ 180
      · rw [if_pos hr]
        constructor
        · intro h
          simp only [Option.some.injEq] at h
          subst h
          exact ⟨rfl, ⟨hr.1, hr.2.1⟩, ⟨hr.2.2.1, hr.2.2.2⟩⟩
        · rintro ⟨rfl, _⟩
          rfl
      · rw [if_neg hr]
        constructor
        · intro h; simp at h
        · rintro ⟨rfl, ⟨ha, hb⟩, ⟨hc1, hd⟩⟩
          exact absurd ⟨ha, hb, hc1, hd⟩ hr
    · rw [if_neg hpos]
      constructor
      · intro h; simp at h
      · rintro ⟨ha, hb, _⟩
        exact absurd ⟨ha, hb⟩ hpos
  · have : ¬ (sc.parsed ≥ 3 ∧
        (if sc.parsed ≥ 1 then sc.lat_raw else 0) > 0 ∧
        (if sc.parsed ≥ 3 then sc.lon_raw else 0) > 0) := fun h => hp h.1
    simp only [this, if_false]
    constructor
    · intro h; simp at h
    · rintro ⟨ha, _⟩
      exact absurd ha hp

/-- C6: when `sim7670g_gnss_get_location` succeeds, the coordinate it returns
comes from the first line with the summary marker and is, with
`dec(V) = floor(V/100) + (V - floor(V/100)*100)/60`: latitude `dec(VLat)`,
negated exactly when the latitude letter is `S`; longitude `-dec(VLon)`, negated
again exactly when the longitude letter is `W`, so `+dec(VLon)` for `W` and
`-dec(VLon)` for any other letter. -/
theorem gnss_location_conversion (env : Env) (st : St) (flat flon : ℚ)
    (h : (sim7670g_gnss_get_location env st).1 = some (flat, flon)) :
    ∃ l, first_summary_line (env.lines (st.xchg + 1)) = some l ∧
      flat = (if (env.sscanf_cgpsinfo l).lat_dir = 83
        then -nmea_decimal (env.sscanf_cgpsinfo l).lat_raw
        else nmea_decimal (env.sscanf_cgpsinfo l).lat_raw) ∧
      flon = (if lon_letter (env.sscanf_cgpsinfo l) = 87
        then - -nmea_decimal (env.sscanf_cgpsinfo l).lon_raw
        else -nmea_decimal (env.sscanf_cgpsinfo l).lon_raw) ∧
      (lon_letter (env.sscanf_cgpsinfo l) = 87 →
        flon = nmea_decimal (env.sscanf_cgpsinfo l).lon_raw) := by
  simp only [sim7670g_gnss_get_location, sim7670g_tx_string, sim7670g_rx_flush,
    gnss_location_loop_first] at h
  cases hf : first_summary_line (env.lines (st.xchg + 1)) with
  | none => simp [hf] at h
  | some l =>
    rw [hf] at h
    simp only at h
    obtain ⟨_, _, _, hc, _⟩ := (gnss_convert_iff _ _).1 h
    simp only [spec_coordinate, Prod.mk.injEq] at hc
    refine ⟨l, rfl, hc.1, hc.2, ?_⟩
    intro hw
    rw [hc.2, if_pos hw, neg_neg]

theorem sample_gps_location :
    (sim7670g_gnss_get_location sample_gps_env sample_st).1 =
      some (59129 / 1200, 92389 / 750) := by
  have hfl1 : Int.floor ((4916.45 : ℚ) / 100) = 49 := by norm_num [Int.floor_eq_iff]
  have hfl2 : Int.floor ((12311.12 : ℚ) / 100) = 123 := by norm_num [Int.floor_eq_iff]
  have hl : gnss_location_loop sample_gps_env
      [none, some (str "OK"), some sample_gps_line] =
      gnss_convert ⟨4, 4916.45, 78, 12311.12, 87⟩ := by
    have h1 : strstr (str "OK") (str "+CGPSINFO:") = false := by decide
    have h2 : strstr sample_gps_line (str "+CGPSINFO:") = true := by decide
    simp [gnss_location_loop, h1, h2, sample_gps_env]
  simp only [sim7670g_gnss_get_location, sim7670g_tx_string, sim7670g_rx_flush, sample_gps_env]
    at hl ⊢
  rw [hl]
  simp only [gnss_convert, c_int_cast]
  norm_num [hfl1, hfl2]

/-- A run of C6 on the sample position line. -/
theorem gnss_location_conversion_witness :
    ∃ l, first_summary_line (sample_gps_env.lines (sample_st.xchg + 1)) = some l ∧
      (59129 / 1200 : ℚ) = (if (sample_gps_env.sscanf_cgpsinfo l).lat_dir = 83
        then -nmea_decimal (sample_gps_env.sscanf_cgpsinfo l).lat_raw
        else nmea_decimal (sample_gps_env.sscanf_cgpsinfo l).lat_raw) ∧
      (92389 / 750 : ℚ) = (if lon_letter (sample_gps_env.sscanf_cgpsinfo l) = 87
        then - -nmea_decimal (sample_gps_env.sscanf_cgpsinfo l).lon_raw
        else -nmea_decimal (sample_gps_env.sscanf_cgpsinfo l).lon_raw) ∧
      (lon_letter (sample_gps_env.sscanf_cgpsinfo l) = 87 →
        (92389 / 750 : ℚ) = nmea_decimal (sample_gps_env.sscanf_cgpsinfo l).lon_raw) :=
  gnss_location_conversion sample_gps_env sample_st (59129 / 1200) (92389 / 750)
    sample_gps_location

/-- C7 (the code at the example of the claim): for the summary line with
latitude `4916.45 N` and longitude `12311.12 W` the call succeeds; the latitude
is within 1e-4 of 49.27417, but the longitude is `+123.18533...`, not within
1e-4 of -123.18533: the value negated at line 375 is negated again for `W`. -/
theorem gnss_location_west_is_positive :
    (sim7670g_gnss_get_location sample_gps_env sample_st).1 =
      some (59129 / 1200, 92389 / 750) ∧
    |(59129 / 1200 : ℚ) - 49.27417| ≤ 1 / 10000 ∧
    |(92389 / 750 : ℚ) - 123.18533| ≤ 1 / 10000 ∧
    ¬ |(92389 / 750 : ℚ) - (-123.18533)| ≤ 1 / 10000 := by
  refine ⟨sample_gps_location, ?_, ?_, ?_⟩
  · rw [abs_le]; constructor <;> norm_num
  · rw [abs_le]; constructor <;> norm_num
  · rw [abs_le]; norm_num

theorem first_summary_line_split (pre post : List (Option Line)) (l : Line)
    (hpre : ∀ x ∈ pre.reduceOption, ¬ str "+CGPSINFO:" <:+: x)
    (hl : str "+CGPSINFO:" <:+: l) :
    first_summary_line (pre ++ some l :: post) = some l := by
  unfold first_summary_line
  rw [List.reduceOption_append, List.reduceOption_cons_of_some, List.find?_append]
  have : pre.reduceOption.find? (fun l => decide (str "+CGPSINFO:" <:+: l)) = none := by
    rw [List.find?_eq_none]
    intro x hx
    simpa using hpre x hx
  rw [this]
  simp [hl]

/-- C8: `sim7670g_gnss_get_location` reports a coordinate exactly when the first
delivered line with the summary marker converted at least three fields, both
packed values are strictly positive and the converted coordinate has
`|lat| <= 90` and `|lon| <= 180`; so a reported coordinate is always in range;
without a summary line, or when the first one fails any of these tests, it
returns failure, whatever lines come after that first summary line. -/
theorem gnss_location_success_iff (env : Env) (st : St) :
    (∀ c : ℚ × ℚ, (sim7670g_gnss_get_location env st).1 = some c ↔
      ∃ l, first_summary_line (env.lines (st.xchg + 1)) = some l ∧
        3 ≤ (env.sscanf_cgpsinfo l).parsed ∧
        0 < (env.sscanf_cgpsinfo l).lat_raw ∧ 0 < (env.sscanf_cgpsinfo l).lon_raw ∧
        c = spec_coordinate (env.sscanf_cgpsinfo l) ∧ |c.1| ≤ 90 ∧ |c.2| ≤ 180) ∧
    (∀ c : ℚ × ℚ, (sim7670g_gnss_get_location env st).1 = some c → |c.1| ≤ 90 ∧ |c.2| ≤ 180) ∧
    (first_summary_line (env.lines (st.xchg + 1)) = none →
      (sim7670g_gnss_get_location env st).1 = none) ∧
    (∀ l, first_summary_line (env.lines (st.xchg + 1)) = some l →
      ((env.sscanf_cgpsinfo l).parsed < 3 ∨ (env.sscanf_cgpsinfo l).lat_raw ≤ 0 ∨
        (env.sscanf_cgpsinfo l).lon_raw ≤ 0 ∨
        ¬ (|(spec_coordinate (env.sscanf_cgpsinfo l)).1| ≤ 90 ∧
          |(spec_coordinate (env.sscanf_cgpsinfo l)).2| ≤ 180)) →
      (sim7670g_gnss_get_location env st).1 = none) ∧
    (∀ pre post l, env.lines (st.xchg + 1) = pre ++ some l :: post →
      (∀ x ∈ pre.reduceOption, ¬ str "+CGPSINFO:" <:+: x) → str "+CGPSINFO:" <:+: l →
      (sim7670g_gnss_get_location env st).1 = gnss_convert (env.sscanf_cgpsinfo l)) := by
  have hres : (sim7670g_gnss_get_location env st).1 =
      match first_summary_line (env.lines (st.xchg + 1)) with
      | none => none
      | some l => gnss_convert (env.sscanf_cgpsinfo l) := by
    simp only [sim7670g_gnss_get_location, sim7670g_tx_string, sim7670g_rx_flush,
      gnss_location_loop_first]
  have hiff : ∀ c : ℚ × ℚ, (sim7670g_gnss_get_location env st).1 = some c ↔
      ∃ l, first_summary_line (env.lines (st.xchg + 1)) = some l ∧
        3 ≤ (env.sscanf_cgpsinfo l).parsed ∧
        0 < (env.sscanf_cgpsinfo l).lat_raw ∧ 0 < (env.sscanf_cgpsinfo l).lon_raw ∧
        c = spec_coordinate (env.sscanf_cgpsinfo l) ∧ |c.1| ≤ 90 ∧ |c.2| ≤ 180 := by
    intro c
    rw [hres]
    cases hf : first_summary_line (env.lines (st.xchg + 1)) with
    | none => simp
    | some l =>
      simp only [gnss_convert_iff, Option.some.injEq, exists_eq_left']
  refine ⟨hiff, ?_, ?_, ?_, ?_⟩
  · intro c hc
    obtain ⟨l, _, _, _, _, _, h5, h6⟩ := (hiff c).1 hc
    exact ⟨h5, h6⟩
  · intro hf
    rw [hres, hf]
  · intro l hf hbad
    rw [hres, hf]
    simp only
    cases hg : gnss_convert (env.sscanf_cgpsinfo l) with
    | none => rfl
    | some c =>
      exfalso
      obtain ⟨h1, h2, h3, h4, h5, h6⟩ := (gnss_convert_iff _ _).1 hg
      subst h4
      rcases hbad with hb | hb | hb | hb
      · omega
      · exact absurd h2 (not_lt.2 hb)
      · exact absurd h3 (not_lt.2 hb)
      · exact hb ⟨h5, h6⟩
  · intro pre post l hev hpre hl
    rw [hres, hev, first_summary_line_split pre post l hpre hl]

/-! ## Session Controller: theorems -/

/-- C9: when the SIM check succeeds, the signal check comes to an end and the
GPRS attach command fails, `sim7670g_init` returns false with the state set to
error, and the attach command is the last thing it transmits: no flush and no
command of a later step (PDP, HTTP, GNSS, identity) follows it. -/
theorem init_attach_failure_aborts (env : Env) (fuel : Nat) (st : St) (sig : Bool × St)
    (hsim : (init_sim_step env st).1 = true)
    (hsig : sim7670g_check_signal env fuel (init_sim_step env st).2 = some sig)
    (hatt : (sim7670g_send_command env sig.2 (str "AT+CGATT=1") (some (str "OK"))).1 = false) :
    ∃ st1, sim7670g_init env fuel st = some (false, st1) ∧
      st1.device_info.state = SIM7670G_STATE_ERROR ∧
      st1.tx = sig.2.tx ++ [str "AT+CGATT=1", str "\r\n"] ∧
      st1.xchg = sig.2.xchg + 1 := by
  unfold init_sim_step at hsim hsig
  unfold sim7670g_init
  simp only [hsim, hsig, sim7670g_attach_gprs, hatt, Bool.not_true, Bool.not_false,
    Bool.false_eq_true, if_false, if_true]
  refine ⟨_, rfl, rfl, ?_, ?_⟩
  · simp [sim7670g_send_command, sim7670g_tx_string, sim7670g_rx_flush]
  · simp [sim7670g_send_command, sim7670g_tx_string, sim7670g_rx_flush]

/-- A run of C9: the SIM is ready, the signal is 20 and the attach is refused. -/
theorem init_attach_failure_aborts_witness :
    ∃ st1, sim7670g_init sample_attach_fail_env 3 sample_st = some (false, st1) ∧
      st1.device_info.state = SIM7670G_STATE_ERROR ∧
      st1.tx = [str "ATE0", str "\r\n", str "AT+CPIN?", str "\r\n", str "AT+CPIN?", str "\r\n",
        str "AT+CSQ\r\n"] ++ [str "AT+CGATT=1", str "\r\n"] ∧
      st1.xchg = 4 + 1 :=
  init_attach_failure_aborts sample_attach_fail_env 3 sample_st
    (true, ⟨4, [str "ATE0", str "\r\n", str "AT+CPIN?", str "\r\n", str "AT+CPIN?", str "\r\n",
        str "AT+CSQ\r\n"],
      ⟨SIM7670G_STATE_INITIALIZING, [], 20, true, false, false, false⟩, str "1234"⟩)
    (by decide) (by decide) (by decide)

/-- C10 (the code at the failing input): with the SIM check, the GPRS attach
and the PDP activation successful and `AT+HTTPINIT` answered by `ERROR`,
`sim7670g_init` returns false and the state is still initializing, not error. -/
theorem init_http_failure_leaves_initializing :
    (sim7670g_init sample_http_fail_env 3 sample_st).map
        (fun r => (r.1, r.2.device_info.state, r.2.device_info.pdp_active)) =
      some (false, SIM7670G_STATE_INITIALIZING, true) := by
  decide

theorem init_hard_steps_ok (env : Env) (fuel : Nat) (st : St) (sig : Bool × St)
    (hsim : (init_sim_step env st).1 = true)
    (hsig : sim7670g_check_signal env fuel (init_sim_step env st).2 = some sig)
    (hatt : (sim7670g_attach_gprs env sig.2).1 = true)
    (hpdp : (sim7670g_activate_pdp env (sim7670g_attach_gprs env sig.2).2).1 = true)
    (hhttp : (sim7670g_send_command env
      (sim7670g_activate_pdp env (sim7670g_attach_gprs env sig.2).2).2
      (str "AT+HTTPINIT") (some (str "OK"))).1 = true) :
    sim7670g_init env fuel st = some (init_tail env (sim7670g_send_command env
      (sim7670g_activate_pdp env (sim7670g_attach_gprs env sig.2).2).2
      (str "AT+HTTPINIT") (some (str "OK"))).2) := by
  unfold init_sim_step at hsim hsig
  unfold sim7670g_init
  simp only [hsim, hsig, hatt, hpdp, hhttp, Bool.not_true, Bool.false_eq_true, if_false]

theorem init_tail_ready (env : Env) (st : St) :
    (init_tail env st).1 = true ∧
      (init_tail env st).2.device_info.state = SIM7670G_STATE_READY := by
  simp [init_tail]

theorem attach_gprs_state (env : Env) (st : St) :
    (sim7670g_attach_gprs env st).2.device_info.state = st.device_info.state := by
  unfold sim7670g_attach_gprs
  simp only [sim7670g_send_command, sim7670g_tx_string, sim7670g_rx_flush]
  split_ifs <;> rfl

theorem activate_pdp_state (env : Env) (st : St) :
    (sim7670g_activate_pdp env st).2.device_info.state = st.device_info.state := by
  unfold sim7670g_activate_pdp
  simp only [sim7670g_send_command, sim7670g_tx_string, sim7670g_rx_flush]
  split_ifs <;> rfl

theorem check_signal_loop_state (env : Env) (fuel : Nat) :
    ∀ (st : St) (rssi retries : Int) (r : Bool × St),
      check_signal_loop env fuel st rssi retries = some r →
      r.2.device_info.state = st.device_info.state := by
  induction fuel with
  | zero => intro st rssi retries r h; simp [check_signal_loop] at h
  | succ fuel ih =>
    intro st rssi retries r h
    unfold check_signal_loop at h
    split_ifs at h with h1
    · simp only at h
      split at h
      · split_ifs at h with h2 h3
        · exact (ih _ _ _ _ h).trans rfl
        · simp only [Option.some.injEq] at h
          subst h
          rfl
        · exact (ih _ _ _ _ h).trans rfl
      · exact (ih _ _ _ _ h).trans rfl
    · simp only [Option.some.injEq] at h
      subst h
      rfl

/-- C11: when the signal check comes to an end (every other step is bounded),
`sim7670g_init` returns, and it returns true with the state ready exactly when
the SIM check, the GPRS attach, the PDP activation and `AT+HTTPINIT` all
succeed; a true return always leaves the state ready and a false return never
does.  The verdicts of echo-off, the signal check, the PDP definition, GNSS
power-on, the fix polling and the identity query do not enter: the PDP step
reports the verdict of the activation command alone. -/
theorem init_ready_iff_hard_steps (env : Env) (fuel : Nat) (st : St) (sig : Bool × St)
    (hterm : (init_sim_step env st).1 = true →
      sim7670g_check_signal env fuel (init_sim_step env st).2 = some sig) :
    ∃ r, sim7670g_init env fuel st = some r ∧
      ((r.1 = true ∧ r.2.device_info.state = SIM7670G_STATE_READY) ↔
        ((init_sim_step env st).1 = true ∧
         (sim7670g_attach_gprs env sig.2).1 = true ∧
         (sim7670g_activate_pdp env (sim7670g_attach_gprs env sig.2).2).1 = true ∧
         (sim7670g_send_command env
            (sim7670g_activate_pdp env (sim7670g_attach_gprs env sig.2).2).2
            (str "AT+HTTPINIT") (some (str "OK"))).1 = true)) ∧
      (r.1 = true → r.2.device_info.state = SIM7670G_STATE_READY) ∧
      (r.1 = false → r.2.device_info.state ≠ SIM7670G_STATE_READY) ∧
      (sim7670g_activate_pdp env (sim7670g_attach_gprs env sig.2).2).1 =
        (sim7670g_send_command env
          (sim7670g_send_command env (sim7670g_attach_gprs env sig.2).2
            (str "AT+CGDCONT=1,\"IP\",\"internet\"") (some (str "OK"))).2
          (str "AT+CGACT=1,1") (some (str "OK"))).1 := by
  have hpdpdef : (sim7670g_activate_pdp env (sim7670g_attach_gprs env sig.2).2).1 =
      (sim7670g_send_command env
        (sim7670g_send_command env (sim7670g_attach_gprs env sig.2).2
          (str "AT+CGDCONT=1,\"IP\",\"internet\"") (some (str "OK"))).2
        (str "AT+CGACT=1,1") (some (str "OK"))).1 := by
    unfold sim7670g_activate_pdp
    simp only
    split_ifs with h
    · simpa using h
    · simpa using h
  by_cases hsim : (init_sim_step env st).1 = true
  · have hsig := hterm hsim
    have hsigstate : sig.2.device_info.state = SIM7670G_STATE_INITIALIZING := by
      have h1 := check_signal_loop_state env fuel _ _ _ _ hsig
      rw [h1]
      simp only [init_sim_step, sim7670g_check_sim, sim7670g_send_command, sim7670g_tx_string,
        sim7670g_rx_flush]
      split_ifs <;> rfl
    by_cases hatt : (sim7670g_attach_gprs env sig.2).1 = true
    · by_cases hpdp : (sim7670g_activate_pdp env (sim7670g_attach_gprs env sig.2).2).1 = true
      · by_cases hhttp : (sim7670g_send_command env
            (sim7670g_activate_pdp env (sim7670g_attach_gprs env sig.2).2).2
            (str "AT+HTTPINIT") (some (str "OK"))).1 = true
        · refine ⟨_, init_hard_steps_ok env fuel st sig hsim hsig hatt hpdp hhttp, ?_, ?_, ?_,
            hpdpdef⟩
          · simp [hsim, hatt, hpdp, hhttp, init_tail_ready]
          · intro _; exact (init_tail_ready env _).2
          · intro h; rw [(init_tail_ready env _).1] at h; simp at h
        · refine ⟨(false, (sim7670g_send_command env
            (sim7670g_activate_pdp env (sim7670g_attach_gprs env sig.2).2).2
            (str "AT+HTTPINIT") (some (str "OK"))).2), ?_, ?_, ?_, ?_, hpdpdef⟩
          · unfold init_sim_step at hsim hsig
            unfold sim7670g_init
            simp only [Bool.not_eq_true] at hhttp
            simp [hsim, hsig, hatt, hpdp, hhttp]
          · simp [hhttp]
          · intro h; simp at h
          · intro _
            have : (sim7670g_send_command env
                (sim7670g_activate_pdp env (sim7670g_attach_gprs env sig.2).2).2
                (str "AT+HTTPINIT") (some (str "OK"))).2.device_info.state =
                SIM7670G_STATE_INITIALIZING := by
              rw [← hsigstate, ← attach_gprs_state env sig.2,
                ← activate_pdp_state env (sim7670g_attach_gprs env sig.2).2]
              simp [sim7670g_send_command, sim7670g_tx_string, sim7670g_rx_flush]
            simp [this]
      · refine ⟨(false, { (sim7670g_activate_pdp env (sim7670g_attach_gprs env sig.2).2).2 with
            device_info := { (sim7670g_activate_pdp env
              (sim7670g_attach_gprs env sig.2).2).2.device_info with
              state := SIM7670G_STATE_ERROR } }), ?_, ?_, ?_, ?_, hpdpdef⟩
        · unfold init_sim_step at hsim hsig
          unfold sim7670g_init
          simp only [Bool.not_eq_true] at hpdp
          simp [hsim, hsig, hatt, hpdp]
        · simp [hpdp]
        · intro h; simp at h
        · intro _; simp
    · refine ⟨(false, { (sim7670g_attach_gprs env sig.2).2 with
          device_info := { (sim7670g_attach_gprs env sig.2).2.device_info with
            state := SIM7670G_STATE_ERROR } }), ?_, ?_, ?_, ?_, hpdpdef⟩
      · unfold init_sim_step at hsim hsig
        unfold sim7670g_init
        simp only [Bool.not_eq_true] at hatt
        simp [hsim, hsig, hatt]
      · simp [hatt]
      · intro h; simp at h
      · intro _; simp
  · refine ⟨(false, { (init_sim_step env st).2 with
        device_info := { (init_sim_step env st).2.device_info with
          state := SIM7670G_STATE_ERROR } }), ?_, ?_, ?_, ?_, hpdpdef⟩
    · unfold init_sim_step at hsim ⊢
      unfold sim7670g_init
      simp only [Bool.not_eq_true] at hsim
      simp [hsim]
    · simp [hsim]
    · intro h; simp at h
    · intro _; simp

/-- A run of C11: every command is accepted and no position is ever reported. -/
theorem init_ready_iff_hard_steps_witness :
    ∃ r, sim7670g_init sample_ok_env 3 sample_st = some r ∧
      (r.1 = true → r.2.device_info.state = SIM7670G_STATE_READY) :=
  (init_ready_iff_hard_steps sample_ok_env 3 sample_st (true, sample_sig_st)
    (fun _ => by decide)).imp (fun _ h => ⟨h.1, h.2.2.1⟩)

theorem check_signal_loop_reading (env : Env) (fuel : Nat) (st : St) (rssi retries q : Int)
    (resp : Line) (rest : List (Option Line)) (hr : 0 < retries)
    (hline : env.lines (st.xchg + 1) = some resp :: rest)
    (hmark : str "+CSQ:" <:+: resp) (hq : env.sscanf_csq resp = some q) :
    check_signal_loop env (fuel + 1) st rssi retries =
      if q = 99 then check_signal_loop env fuel (csq_read st 1 q) q (retries - 1)
      else some (true, csq_read st 1 q) := by
  have hs : strstr resp (str "+CSQ:") = true := (strstr_iff_occurs _ _).2 hmark
  rw [check_signal_loop]
  simp only [gt_iff_lt, hr, if_true, read_line_once, sim7670g_tx_string, sim7670g_rx_flush, hline,
    hs, hq, csq_read, List.replicate_one]

theorem check_signal_loop_no_reading (env : Env)
    (hno : ∀ k resp rest, env.lines k = some resp :: rest → ¬ str "+CSQ:" <:+: resp)
    (n : Nat) :
    ∀ (fuel : Nat) (st : St) (rssi retries : Int), 0 < retries →
      check_signal_loop env (n + fuel) st rssi retries =
        check_signal_loop env fuel (csq_sent st n) rssi retries := by
  induction n with
  | zero =>
    intro fuel st rssi retries _
    simp [csq_sent]
  | succ n ih =>
    intro fuel st rssi retries hr
    have hstep : check_signal_loop env (n + fuel + 1) st rssi retries =
        check_signal_loop env (n + fuel) (csq_sent st 1) rssi retries := by
      rw [check_signal_loop]
      simp only [gt_iff_lt, hr, if_true, read_line_once, sim7670g_tx_string, sim7670g_rx_flush]
      cases hl : env.lines (st.xchg + 1) with
      | nil => simp [csq_sent]
      | cons ev rest =>
        cases ev with
        | none => simp [csq_sent]
        | some resp =>
          have hns : strstr resp (str "+CSQ:") = false := by
            rw [← Bool.not_eq_true, strstr_iff_occurs]
            exact hno _ resp rest hl
          simp [hns, csq_sent]
    rw [show n + 1 + fuel = n + fuel + 1 by omega, hstep, ih fuel (csq_sent st 1) rssi retries hr]
    congr 1
    simp only [csq_sent, List.append_assoc, ← List.replicate_add, St.mk.injEq, and_true,
      true_and]
    constructor
    · omega
    · rw [Nat.add_comm]

/-- C12: when every reply to the signal query is a `+CSQ:` line read as quality
99, the check transmits the query exactly 3 times and returns failure; when the
first reply is a `+CSQ:` line read as quality 0, it returns success after that
single query, with 0 recorded as the signal quality. -/
theorem check_signal_three_tries_or_zero (env : Env) (st : St) (fuel : Nat) :
    ((∀ k, ∃ resp rest, env.lines k = some resp :: rest ∧ str "+CSQ:" <:+: resp ∧
        env.sscanf_csq resp = some 99) →
      sim7670g_check_signal env (fuel + 4) st = some (false, csq_read st 3 99)) ∧
    ((∃ resp rest, env.lines (st.xchg + 1) = some resp :: rest ∧ str "+CSQ:" <:+: resp ∧
        env.sscanf_csq resp = some 0) →
      sim7670g_check_signal env (fuel + 1) st = some (true, csq_read st 1 0)) := by
  constructor
  · intro h
    obtain ⟨r1, t1, hl1, hm1, hq1⟩ := h (st.xchg + 1)
    obtain ⟨r2, t2, hl2, hm2, hq2⟩ := h ((csq_read st 1 99).xchg + 1)
    obtain ⟨r3, t3, hl3, hm3, hq3⟩ := h ((csq_read (csq_read st 1 99) 1 99).xchg + 1)
    unfold sim7670g_check_signal
    rw [check_signal_loop_reading env (fuel + 3) st 99 3 99 r1 t1 (by omega) hl1 hm1 hq1,
      if_pos rfl,
      check_signal_loop_reading env (fuel + 2) _ 99 (3 - 1) 99 r2 t2 (by omega) hl2 hm2 hq2,
      if_pos rfl,
      check_signal_loop_reading env (fuel + 1) _ 99 (3 - 1 - 1) 99 r3 t3 (by omega) hl3 hm3 hq3,
      if_pos rfl, check_signal_loop]
    simp [csq_read, List.replicate_succ]
  · rintro ⟨r1, t1, hl1, hm1, hq1⟩
    unfold sim7670g_check_signal
    rw [check_signal_loop_reading env fuel st 99 3 0 r1 t1 (by omega) hl1 hm1 hq1]
    simp

/-- A run of C12: three readings of 99 on one modem, one reading of 0 on
another. -/
theorem check_signal_three_tries_or_zero_witness :
    sim7670g_check_signal sample_csq99_env 4 sample_st = some (false, csq_read sample_st 3 99) ∧
    sim7670g_check_signal sample_csq0_env 1 sample_st = some (true, csq_read sample_st 1 0) :=
  ⟨(check_signal_three_tries_or_zero sample_csq99_env sample_st 0).1
      (fun _ => ⟨str "+CSQ: 99,99", [], rfl, by decide, rfl⟩),
    (check_signal_three_tries_or_zero sample_csq0_env sample_st 0).2
      ⟨str "+CSQ: 0,99", [], rfl, by decide, rfl⟩⟩

/-- C13 (the code at the failing input): on a modem that never replies the
signal check does not return, whatever the fuel: after any number `n` of passes
it has transmitted the query `n` times and is in the loop with its three retries
intact. -/
theorem check_signal_silent_never_returns :
    (∀ fuel, sim7670g_check_signal sample_silent_env fuel sample_st = none) ∧
    (∀ n fuel, sim7670g_check_signal sample_silent_env (n + fuel) sample_st =
      check_signal_loop sample_silent_env fuel (csq_sent sample_st n) 99 3) ∧
    (csq_sent sample_st 4).tx = [str "AT+CSQ\r\n", str "AT+CSQ\r\n", str "AT+CSQ\r\n",
      str "AT+CSQ\r\n"] := by
  have hno : ∀ k resp rest, sample_silent_env.lines k = some resp :: rest →
      ¬ str "+CSQ:" <:+: resp := by
    intro k resp rest h
    simp [sample_silent_env] at h
  refine ⟨?_, ?_, by decide⟩
  · intro fuel
    have := check_signal_loop_no_reading sample_silent_env hno fuel 0 sample_st 99 3 (by omega)
    unfold sim7670g_check_signal
    rw [Nat.add_zero] at this
    rw [this, check_signal_loop]
  · intro n fuel
    exact check_signal_loop_no_reading sample_silent_env hno n fuel sample_st 99 3 (by omega)

/-! ## HTTP POST and the verdict of a command: theorems -/

theorem http_action_loop_first (env : Env) (events : List (Option Line)) :
    http_action_loop env events =
      (first_line_containing (str "+HTTPACTION:") events).map env.sscanf_httpaction := by
  induction events with
  | nil => simp [http_action_loop, first_line_containing]
  | cons ev events ih =>
    cases ev with
    | none =>
      rw [http_action_loop, ih]
      simp [first_line_containing, List.reduceOption_cons_of_none]
    | some response =>
      rw [http_action_loop]
      by_cases hs : strstr response (str "+HTTPACTION:") = true
      · have hin := (strstr_iff_occurs _ _).1 hs
        simp [first_line_containing, List.reduceOption_cons_of_some, hs, hin]
      · have hin : ¬ str "+HTTPACTION:" <:+: response :=
          fun h => hs ((strstr_iff_occurs _ _).2 h)
        rw [if_neg hs, ih]
        simp [first_line_containing, List.reduceOption_cons_of_some, hin]

/-- C14: `sim7670g_https_post` returns true exactly when the URL command and
the content-type command succeed, the line read after the data announcement
contains `DOWNLOAD`, and the first line with `+HTTPACTION:` delivered before the
deadline reports status 200.  The announcement carries the length of the body in
decimal.  Without the prompt the trace ends with the announcement: the body is
not transmitted.  With the prompt the body is transmitted as it is, directly
followed by the action command. -/
theorem https_post_true_iff (env : Env) (st : St) (url json_data : Line) :
    ((sim7670g_https_post env st url json_data).1 = true ↔
      (sim7670g_send_command env st (post_url_cmd url) (some (str "OK"))).1 = true ∧
      (sim7670g_send_command env
        (sim7670g_send_command env st (post_url_cmd url) (some (str "OK"))).2
        post_content_cmd (some (str "OK"))).1 = true ∧
      (∃ resp rest, env.lines (st.xchg + 3) = some resp :: rest ∧ str "DOWNLOAD" <:+: resp) ∧
      (∃ l, first_line_containing (str "+HTTPACTION:") (env.lines (st.xchg + 4)) = some l ∧
        (env.sscanf_httpaction l).1 = 200)) ∧
    ((sim7670g_send_command env st (post_url_cmd url) (some (str "OK"))).1 = true →
      (sim7670g_send_command env
        (sim7670g_send_command env st (post_url_cmd url) (some (str "OK"))).2
        post_content_cmd (some (str "OK"))).1 = true →
      ((¬ ∃ resp rest, env.lines (st.xchg + 3) = some resp :: rest ∧ str "DOWNLOAD" <:+: resp) →
        (sim7670g_https_post env st url json_data).2.tx =
          st.tx ++ [post_url_cmd url, str "\r\n", post_content_cmd, str "\r\n",
            post_data_cmd json_data, str "\r\n"]) ∧
      ((∃ resp rest, env.lines (st.xchg + 3) = some resp :: rest ∧ str "DOWNLOAD" <:+: resp) →
        (sim7670g_https_post env st url json_data).2.tx =
          st.tx ++ [post_url_cmd url, str "\r\n", post_content_cmd, str "\r\n",
            post_data_cmd json_data, str "\r\n", json_data, str "AT+HTTPACTION=1\r\n"])) := by
  unfold sim7670g_https_post
  simp only [post_url_cmd, post_content_cmd, post_data_cmd]
  generalize (str "AT+HTTPPARA=\"URL\",\"" ++ url ++ str "\"").take 767 = ucmd
  generalize str "AT+HTTPPARA=\"CONTENT\",\"application/json\"" = ccmd
  generalize (str "AT+HTTPDATA=" ++ str (toString json_data.length) ++ str ",10000").take 767
    = dcmd
  have hx2 : (sim7670g_send_command env
      (sim7670g_send_command env st ucmd (some (str "OK"))).2 ccmd (some (str "OK"))).2.xchg =
      st.xchg + 2 := by
    rw [send_command_xchg, send_command_xchg]
  have ht2 : (sim7670g_send_command env
      (sim7670g_send_command env st ucmd (some (str "OK"))).2 ccmd (some (str "OK"))).2.tx =
      st.tx ++ [ucmd, str "\r\n", ccmd, str "\r\n"] := by
    simp [sim7670g_send_command, sim7670g_tx_string, sim7670g_rx_flush]
  by_cases h1 : (sim7670g_send_command env st ucmd (some (str "OK"))).1 = true
  · by_cases h2 : (sim7670g_send_command env
        (sim7670g_send_command env st ucmd (some (str "OK"))).2 ccmd (some (str "OK"))).1 = true
    · simp only [h1, h2, Bool.not_true, Bool.false_eq_true, if_false, true_and, forall_true_left,
        read_line_once, sim7670g_tx_string, sim7670g_rx_flush, hx2, ht2]
      cases hl : env.lines (st.xchg + 2 + 1) with
      | nil =>
        have hl' : env.lines (st.xchg + 3) = [] := hl
        simp [hl']
      | cons ev rest =>
        have hl' : env.lines (st.xchg + 3) = ev :: rest := hl
        cases ev with
        | none => simp [hl']
        | some resp =>
          by_cases hd : strstr resp (str "DOWNLOAD") = true
          · have hin := (strstr_iff_occurs _ _).1 hd
            have hex : ∃ resp' rest', some resp :: rest = some resp' :: rest' ∧
                str "DOWNLOAD" <:+: resp' := ⟨resp, rest, rfl, hin⟩
            simp only [hl', hd, hex, Bool.not_true, Bool.false_eq_true, if_false,
              http_action_loop_first, true_and, not_true_eq_false,
              false_implies, forall_true_left,
              show st.xchg + 2 + 1 + 1 = st.xchg + 4 by omega]
            constructor
            · cases hf : first_line_containing (str "+HTTPACTION:") (env.lines (st.xchg + 4)) with
              | none => simp
              | some l =>
                rcases hsc : env.sscanf_httpaction l with ⟨status, length⟩
                simp [hsc]
            · cases hf : first_line_containing (str "+HTTPACTION:") (env.lines (st.xchg + 4)) with
              | none => simp
              | some l =>
                rcases hsc : env.sscanf_httpaction l with ⟨status, length⟩
                simp
          · have hin : ¬ str "DOWNLOAD" <:+: resp := fun h => hd ((strstr_iff_occurs _ _).2 h)
            simp [hl', hd, hin]
    · simp [h1, h2]
  · simp [h1]

/-- A run of C14: the sample POST is accepted. -/
theorem https_post_true_iff_witness :
    (sim7670g_https_post sample_post_env sample_st (str "https://example.org/p")
      (str "\x7b\"a\":1\x7d")).2.tx =
      sample_st.tx ++ [post_url_cmd (str "https://example.org/p"), str "\r\n", post_content_cmd,
        str "\r\n", post_data_cmd (str "\x7b\"a\":1\x7d"), str "\r\n", str "\x7b\"a\":1\x7d",
        str "AT+HTTPACTION=1\r\n"] :=
  ((https_post_true_iff sample_post_env sample_st (str "https://example.org/p")
    (str "\x7b\"a\":1\x7d")).2 (by decide) (by decide)).2
    ⟨str "DOWNLOAD", [], rfl, by decide⟩

theorem send_command_loop_verdict (events : List (Option Line)) (n : Nat) :
    send_command_loop none events n =
      match (events.reduceOption.take (10 - n)).find?
          (fun l => decide (str "OK" <:+: l) || decide (str "ERROR" <:+: l)) with
      | none => false
      | some l => decide (str "OK" <:+: l) := by
  induction events generalizing n with
  | nil => simp [send_command_loop]
  | cons ev events ih =>
    unfold send_command_loop
    by_cases hn : n < 10
    · simp only [hn, if_true]
      cases ev with
      | none => simp [ih, List.reduceOption_cons_of_none]
      | some response =>
        obtain ⟨k, hk⟩ : ∃ k, 10 - n = k + 1 := ⟨9 - n, by omega⟩
        have hk2 : 10 - (n + 1) = k := by omega
        simp only [List.reduceOption_cons_of_some, hk, List.take_succ_cons, List.find?_cons]
        by_cases hok : strstr response (str "OK") = true
        · have hin := (strstr_iff_occurs _ _).1 hok
          simp [hok, hin]
        · have hin : ¬ str "OK" <:+: response := fun h => hok ((strstr_iff_occurs _ _).2 h)
          by_cases her : strstr response (str "ERROR") = true
          · have hie := (strstr_iff_occurs _ _).1 her
            simp [hok, hin, her, hie]
          · have hie : ¬ str "ERROR" <:+: response :=
              fun h => her ((strstr_iff_occurs _ _).2 h)
            simp [hok, hin, her, hie, ih, hk2]
    · have h0 : 10 - n = 0 := by omega
      simp [hn, h0]

/-- C15: without an expected token `sim7670g_send_command` returns the verdict
of the first line, among the first 10 delivered before the deadline, that
contains `OK` or `ERROR`: true when that line contains `OK` (also when it
contains `ERROR` as well), false when it contains `ERROR` only; and false when
no such line is delivered. -/
theorem send_command_verdict (env : Env) (st : St) (cmd : Line) :
    (sim7670g_send_command env st cmd none).1 =
      (match first_verdict_line (env.lines (st.xchg + 1)) with
      | none => false
      | some l => decide (str "OK" <:+: l)) ∧
    (∀ l, first_verdict_line (env.lines (st.xchg + 1)) = some l → str "OK" <:+: l →
      (sim7670g_send_command env st cmd none).1 = true) ∧
    (∀ l, first_verdict_line (env.lines (st.xchg + 1)) = some l → ¬ str "OK" <:+: l →
      str "ERROR" <:+: l ∧ (sim7670g_send_command env st cmd none).1 = false) ∧
    (first_verdict_line (env.lines (st.xchg + 1)) = none →
      (sim7670g_send_command env st cmd none).1 = false) := by
  have key : (sim7670g_send_command env st cmd none).1 =
      (match first_verdict_line (env.lines (st.xchg + 1)) with
      | none => false
      | some l => decide (str "OK" <:+: l)) := by
    simp only [sim7670g_send_command, sim7670g_tx_string, sim7670g_rx_flush,
      send_command_loop_verdict, first_verdict_line, Nat.sub_zero]
    rfl
  refine ⟨key, ?_, ?_, ?_⟩
  · intro l hl hok
    rw [key, hl]
    simp [hok]
  · intro l hl hok
    refine ⟨?_, ?_⟩
    · have := List.find?_some hl
      simpa [hok] using this
    · rw [key, hl]
      simp [hok]
  · intro hl
    rw [key, hl]

/-! ## Silence thresholds and the fix polling: theorems -/

theorem https_stream_loop_quiet (buffer_len : Int) (rest : List (Option Nat)) (buf : List Nat)
    (hroom : (buf.length : Int) < buffer_len - 1) (k : Nat) :
    ∀ (n : Int), n + k ≤ 50 →
      https_stream_loop buffer_len (List.replicate k none ++ rest) buf n =
        https_stream_loop buffer_len rest buf (n + k) := by
  induction k with
  | zero => intro n _; simp
  | succ k ih =>
    intro n h
    push_cast at h
    rw [List.replicate_succ, List.cons_append, https_stream_loop_timeout, if_pos hroom,
      if_neg (by omega), ih (n + 1) (by omega)]
    congr 1
    push_cast
    omega

theorem https_stream_loop_no_object (buffer_len : Int) (rest : List (Option Nat))
    (buf : List Nat) (hroom : (buf.length : Int) < buffer_len - 1)
    (hscan : (brace_scan buf).isSome = false) (k : Nat) :
    ∀ (n : Int), n + k ≤ 200 →
      https_stream_loop buffer_len (List.replicate k none ++ rest) buf n =
        https_stream_loop buffer_len rest buf (n + k) := by
  induction k with
  | zero => intro n _; simp
  | succ k ih =>
    intro n h
    push_cast at h
    have hstep : https_stream_loop buffer_len (none :: (List.replicate k none ++ rest)) buf n =
        https_stream_loop buffer_len (List.replicate k none ++ rest) buf (n + 1) := by
      rw [https_stream_loop_timeout, if_pos hroom]
      by_cases h50 : n + 1 > 50
      · rw [if_pos h50, hscan, if_neg (by simp), if_neg (by omega)]
      · rw [if_neg h50]
    rw [List.replicate_succ, List.cons_append, hstep, ih (n + 1) (by omega)]
    congr 1
    push_cast
    omega

theorem https_stream_loop_abort (buffer_len : Int) (rest : List (Option Nat))
    (buf : List Nat) (hroom : (buf.length : Int) < buffer_len - 1)
    (hscan : (brace_scan buf).isSome = false) :
    https_stream_loop buffer_len (none :: rest) buf 200 = (buf, StreamExit.silence) := by
  rw [https_stream_loop_timeout, if_pos hroom, if_pos (by omega), hscan, if_neg (by simp),
    if_pos (by omega)]

theorem https_stream_loop_end (buffer_len : Int) (buf : List Nat) (n : Int)
    (hroom : (buf.length : Int) < buffer_len - 1) :
    https_stream_loop buffer_len [] buf n = (buf, StreamExit.deadline) := by
  rw [https_stream_loop, if_pos hroom]

/-- C16 (the code at the failing input): with a byte wait of 100000 microseconds,
after a complete object has arrived the buffer is not scanned during the first
50 byte timeouts (5000 ms of silence); the first scan, which ends the read, comes
with the 51st, after 5100 ms.  Without a balanced object the read goes on through
200 byte timeouts and is given up at the 201st, after 20100 ms. -/
theorem stream_silence_thresholds :
    https_stream_loop 4096 (sample_object.map some ++ (List.replicate 50 none ++ [])) [] 0 =
      (sample_object, StreamExit.deadline) ∧
    (∀ later, https_stream_loop 4096
        (sample_object.map some ++ (List.replicate 51 none ++ later)) [] 0 =
      (sample_object, StreamExit.json_complete)) ∧
    51 * BYTE_TIMEOUT_US = 5100 * 1000 ∧
    https_stream_loop 4096 (sample_header.map some ++ (List.replicate 200 none ++ [])) [] 0 =
      (sample_header, StreamExit.deadline) ∧
    (∀ later, https_stream_loop 4096
        (sample_header.map some ++ (List.replicate 201 none ++ later)) [] 0 =
      (sample_header, StreamExit.silence)) ∧
    201 * BYTE_TIMEOUT_US = 20100 * 1000 := by
  have hobj : sample_object = 123 :: sample_object.tail := by decide
  have hhdr : sample_header = 13 :: sample_header.tail := by decide
  have hroomo : ((sample_object.length : Nat) : Int) < 4096 - 1 := by decide
  have hroomh : ((sample_header.length : Nat) : Int) < 4096 - 1 := by decide
  have hso : (brace_scan sample_object).isSome = true := by decide
  have hsh : (brace_scan sample_header).isSome = false := by decide
  have hbo : ∀ rest, https_stream_loop 4096 (sample_object.map some ++ rest) [] 0 =
      https_stream_loop 4096 rest sample_object 0 := by
    intro rest
    have := https_stream_loop_bytes 4096 rest sample_object.tail 123 [] 0 (by decide)
    rw [← hobj] at this
    simpa using this
  have hbh : ∀ rest, https_stream_loop 4096 (sample_header.map some ++ rest) [] 0 =
      https_stream_loop 4096 rest sample_header 0 := by
    intro rest
    have := https_stream_loop_bytes 4096 rest sample_header.tail 13 [] 0 (by decide)
    rw [← hhdr] at this
    simpa using this
  refine ⟨?_, ?_, by decide, ?_, ?_, by decide⟩
  · rw [hbo, https_stream_loop_quiet 4096 [] sample_object hroomo 50 0 (by norm_num),
      https_stream_loop_end 4096 _ _ hroomo]
  · intro later
    rw [hbo]
    exact https_stream_loop_silence 4096 later sample_object hroomo hso 51 0 (by omega) (by omega)
  · rw [hbh, https_stream_loop_no_object 4096 [] sample_header hroomh hsh 200 0 (by norm_num),
      https_stream_loop_end 4096 _ _ hroomh]
  · intro later
    rw [hbh, show (201 : Nat) = 200 + 1 from rfl, List.replicate_add, List.append_assoc,
      https_stream_loop_no_object 4096 _ sample_header hroomh hsh 200 0 (by norm_num)]
    simp only [List.replicate_one, List.singleton_append, zero_add, Nat.cast_ofNat]
    exact https_stream_loop_abort 4096 later sample_header hroomh hsh

theorem gnss_fix_loop_no_fix (env : Env)
    (hno : ∀ k, gnss_location_loop env (env.lines k) = none) (n : Nat) :
    ∀ (st : St), gnss_fix_loop env n st =
      ⟨st.xchg + n, st.tx ++ List.replicate n (str "AT+CGPSINFO\r\n"), st.device_info,
        st.pin_⟩ := by
  induction n with
  | zero => intro st; simp [gnss_fix_loop]
  | succ n ih =>
    intro st
    rw [gnss_fix_loop]
    simp only [sim7670g_gnss_get_location, sim7670g_tx_string, sim7670g_rx_flush, hno,
      Option.isSome_none, Bool.false_eq_true, if_false, ih]
    simp only [List.append_assoc, St.mk.injEq, and_true, true_and]
    constructor
    · omega
    · rw [show n + 1 = 1 + n by omega, List.replicate_add]
      rfl

theorem sample_ok_env_no_fix :
    ∀ k, gnss_location_loop sample_ok_env (sample_ok_env.lines k) = none := by
  intro k
  simp only [sample_ok_env]
  split_ifs <;> decide

theorem init_tail_tx_no_fix (env : Env)
    (hno : ∀ k, gnss_location_loop env (env.lines k) = none) (st : St)
    (hpow : (sim7670g_gnss_power_on env st).1 = true) :
    (init_tail env st).2.tx =
      st.tx ++ [str "AT+CGNSSPWR=1", str "\r\n", str "AT+CGNSSPWR?\r\n"] ++
        List.replicate 300 (str "AT+CGPSINFO\r\n") ++ [str "AT+GSN\r\n"] := by
  have htx : ∀ (s : St), (sim7670g_get_info env s).2.tx = s.tx ++ [str "AT+GSN\r\n"] := by
    intro s
    simp only [sim7670g_get_info, sim7670g_tx_string, sim7670g_rx_flush]
    split <;> rfl
  have hp : (sim7670g_gnss_power_on env st).2.tx = st.tx ++ [str "AT+CGNSSPWR=1", str "\r\n"] := by
    simp only [sim7670g_gnss_power_on, sim7670g_send_command, sim7670g_tx_string,
      sim7670g_rx_flush]
    split_ifs <;> simp
  simp only [init_tail, hpow, if_true, htx, gnss_fix_loop_no_fix env hno,
    sim7670g_gnss_check_power, sim7670g_tx_string, sim7670g_rx_flush, hp]
  simp only [List.append_assoc, List.cons_append, List.nil_append]

/-- C17 (the code at the failing input): on a modem that accepts every command
and never reports a position, `sim7670g_init` returns true after sending the
position query 300 times, not 30. -/
theorem init_polls_fix_300_times :
    ∃ st1, sim7670g_init sample_ok_env 3 sample_st = some (true, st1) ∧
      st1.tx.count (str "AT+CGPSINFO\r\n") = 300 ∧
      st1.device_info.state = SIM7670G_STATE_READY := by
  have hinit := init_hard_steps_ok sample_ok_env 3 sample_st (true, sample_sig_st)
    (by decide) (by decide) (by decide) (by decide) (by decide)
  have hpow : (sim7670g_gnss_power_on sample_ok_env (sim7670g_send_command sample_ok_env
      (sim7670g_activate_pdp sample_ok_env
        (sim7670g_attach_gprs sample_ok_env (true, sample_sig_st).2).2).2
      (str "AT+HTTPINIT") (some (str "OK"))).2).1 = true := by decide
  have hcount : (sim7670g_send_command sample_ok_env
      (sim7670g_activate_pdp sample_ok_env
        (sim7670g_attach_gprs sample_ok_env (true, sample_sig_st).2).2).2
      (str "AT+HTTPINIT") (some (str "OK"))).2.tx.count (str "AT+CGPSINFO\r\n") = 0 := by decide
  generalize (sim7670g_send_command sample_ok_env
      (sim7670g_activate_pdp sample_ok_env
        (sim7670g_attach_gprs sample_ok_env (true, sample_sig_st).2).2).2
      (str "AT+HTTPINIT") (some (str "OK"))).2 = X at hinit hpow hcount
  refine ⟨(init_tail sample_ok_env X).2, ?_, ?_, (init_tail_ready _ _).2⟩
  · rw [hinit]
    rfl
  · rw [init_tail_tx_no_fix sample_ok_env sample_ok_env_no_fix X hpow]
    simp only [List.count_append, hcount, List.count_replicate]
    decide

/-! ## Buffer bounds: theorems -/

theorem https_stream_loop_length (buffer_len : Int) (events : List (Option Nat)) :
    ∀ (buf : List Nat) (n : Int), (buf = [] ∨ (buf.length : Int) ≤ buffer_len - 1) →
      ((https_stream_loop buffer_len events buf n).1 = [] ∨
        ((https_stream_loop buffer_len events buf n).1.length : Int) ≤ buffer_len - 1) := by
  induction events with
  | nil =>
    intro buf n h
    rw [https_stream_loop]
    split_ifs <;> exact h
  | cons ev events ih =>
    intro buf n h
    cases ev with
    | some c =>
      rw [https_stream_loop_byte]
      split_ifs with h1
      · exact ih (buf ++ [c]) 0 (Or.inr (by
          rw [List.length_append, List.length_singleton]; push_cast; omega))
      · exact h
    | none =>
      rw [https_stream_loop_timeout]
      split_ifs
      all_goals
        first
        | exact ih buf (n + 1) h
        | exact h

theorem https_get_ok_request (env : Env) (st : St) (url : Line) (buffer_len : Int)
    (hok : (sim7670g_https_get env st url buffer_len).1.ok = true) :
    ∃ n, (https_get_request env st url).1 = some n := by
  unfold sim7670g_https_get at hok
  rcases hr : https_get_request env st url with ⟨o, st1⟩
  rw [hr] at hok
  cases o with
  | none => simp at hok
  | some n => exact ⟨n, rfl⟩

/-- C18: for every capacity and every stream of byte waits, a streamed byte is
stored only at an index below `buffer_len - 1`; when the scan finds a span the
object has `json_len = j - i + 1` bytes, `json_len` is at most the number of
bytes stored, which is at most `buffer_len - 1`, so the terminator written at
index `json_len` is inside the buffer; and all that a successful call leaves in
the buffer, terminator included, fits in `buffer_len` bytes. -/
theorem https_get_writes_in_bounds (env : Env) (st : St) (url : Line) (buffer_len : Int)
    (events : List (Option Nat)) :
    (∀ p : Nat, p < (https_stream_loop buffer_len events [] 0).1.length →
      (p : Int) < buffer_len - 1) ∧
    (∀ i j, brace_scan (https_stream_loop buffer_len events [] 0).1 = some (i, j) →
      (https_extract (https_stream_loop buffer_len events [] 0).1).response_buffer.length
        = (j - i + 1) + 1 ∧
      j - i + 1 ≤ (https_stream_loop buffer_len events [] 0).1.length ∧
      (((https_stream_loop buffer_len events [] 0).1.length : Nat) : Int) ≤ buffer_len - 1 ∧
      (((j - i + 1 : Nat) : Nat) : Int) < buffer_len) ∧
    ((sim7670g_https_get env st url buffer_len).1.ok = true →
      (((sim7670g_https_get env st url buffer_len).1.response_buffer.length : Nat) : Int)
        ≤ buffer_len) := by
  have hlen : ∀ ev : List (Option Nat), (https_stream_loop buffer_len ev [] 0).1 = [] ∨
      ((https_stream_loop buffer_len ev [] 0).1.length : Int) ≤ buffer_len - 1 :=
    fun ev => https_stream_loop_length buffer_len ev [] 0 (Or.inl rfl)
  have hspan : ∀ (ev : List (Option Nat)) (i j : Nat),
      brace_scan (https_stream_loop buffer_len ev [] 0).1 = some (i, j) →
      (https_extract (https_stream_loop buffer_len ev [] 0).1).response_buffer.length
        = (j - i + 1) + 1 ∧
      j - i + 1 ≤ (https_stream_loop buffer_len ev [] 0).1.length ∧
      (((https_stream_loop buffer_len ev [] 0).1.length : Nat) : Int) ≤ buffer_len - 1 ∧
      (((j - i + 1 : Nat) : Nat) : Int) < buffer_len := by
    intro ev i j h
    obtain ⟨hij, hj, _, _, _⟩ := brace_scan_some_props _ i j h
    have hl : (((https_stream_loop buffer_len ev [] 0).1.length : Nat) : Int)
        ≤ buffer_len - 1 := by
      rcases hlen ev with h0 | h0
      · rw [h0] at hj; simp at hj
      · exact h0
    refine ⟨?_, by omega, hl, by omega⟩
    rw [https_extract_some _ _ _ h]
    simp only [List.length_append, List.length_take, List.length_drop, List.length_singleton]
    omega
  refine ⟨?_, hspan events, ?_⟩
  · intro p hp
    rcases hlen events with h0 | h0
    · rw [h0] at hp; simp at hp
    · omega
  · intro hok
    obtain ⟨n, hn⟩ := https_get_ok_request env st url buffer_len hok
    rw [https_get_eq_extract env st url buffer_len n hn] at hok ⊢
    cases hs : brace_scan (https_stream_loop buffer_len (env.bytes (st.xchg + 4)) [] 0).1 with
    | none => simp [https_extract, hs] at hok
    | some sp =>
      obtain ⟨i, j⟩ := sp
      obtain ⟨h1, h2, h3, h4⟩ := hspan _ i j hs
      rw [h1]
      push_cast at h4 ⊢
      omega

/-! ## The bot: theorems -/

/-- C19: a message whose `chat_id` is not among the authorized users leaves the
bot as it was, whatever its text and username: nothing is transmitted (no
message, no position query), nothing is queued and the polling interval is
unchanged. -/
theorem on_telegram_message_unauthorized (env : Env) (snprintf_location : ℚ → ℚ → Line)
    (authorized_users : List Line) (bot : TelegramBot) (chat_id text username : Line)
    (h : chat_id ∉ authorized_users) :
    on_telegram_message env snprintf_location authorized_users bot chat_id text username = bot ∧
    (on_telegram_message env snprintf_location authorized_users bot chat_id text
      username).sim7670g.tx = bot.sim7670g.tx ∧
    (on_telegram_message env snprintf_location authorized_users bot chat_id text
      username).message_queue = bot.message_queue ∧
    (on_telegram_message env snprintf_location authorized_users bot chat_id text
      username).telegramPollInterval = bot.telegramPollInterval := by
  have heq : on_telegram_message env snprintf_location authorized_users bot chat_id text
      username = bot := by
    unfold on_telegram_message
    simp only [h, not_false_eq_true, if_true]
  rw [heq]
  exact ⟨rfl, rfl, rfl, rfl⟩

/-- A run of C19: `/activo` from a chat that is not authorized. -/
theorem on_telegram_message_unauthorized_witness :
    on_telegram_message sample_post_env (fun _ _ => []) [str "111"] sample_bot (str "222")
      (str "/activo") (str "eve") = sample_bot :=
  (on_telegram_message_unauthorized sample_post_env (fun _ _ => []) [str "111"] sample_bot
    (str "222") (str "/activo") (str "eve") (by decide)).1

theorem sendMessage_eq_post (env : Env) (bot : TelegramBot) (chat_id text : Line) :
    (TelegramBot.sendMessage env bot chat_id text).1 =
      (sim7670g_https_post env bot.sim7670g (send_url bot.bot_token)
        (send_json chat_id text)).1 := by
  unfold TelegramBot.sendMessage send_url send_json
  simp only
  split_ifs with h1
  · exact h1.symm
  · simp only [Bool.not_eq_true] at h1
    exact h1.symm

theorem sendMessage_ok_queue (env : Env) (bot : TelegramBot) (chat_id text : Line)
    (h : (TelegramBot.sendMessage env bot chat_id text).1 = true) :
    (TelegramBot.sendMessage env bot chat_id text).2.message_queue = bot.message_queue := by
  unfold TelegramBot.sendMessage at h ⊢
  simp only at h ⊢
  split_ifs at h ⊢ with h1
  all_goals rfl

theorem sendMessage_fail_queue (env : Env) (bot : TelegramBot) (chat_id text : Line)
    (h : (TelegramBot.sendMessage env bot chat_id text).1 = false) :
    (TelegramBot.sendMessage env bot chat_id text).2.message_queue =
      bot.message_queue ++ [⟨chat_id, text⟩] := by
  unfold TelegramBot.sendMessage at h ⊢
  simp only at h ⊢
  split_ifs at h ⊢ with h1
  all_goals rfl

theorem sendMessage_ok (env : Env) (bot : TelegramBot) (m : TelegramMessage)
    (h : (post_of env bot.bot_token bot.sim7670g m).1 = true) :
    TelegramBot.sendMessage env bot m.chat_id m.text =
      (true, { bot with sim7670g := (post_of env bot.bot_token bot.sim7670g m).2 }) := by
  unfold post_of send_url send_json at h
  unfold TelegramBot.sendMessage post_of send_url send_json
  simp only [h, if_true]

theorem sendMessage_fail (env : Env) (bot : TelegramBot) (m : TelegramMessage)
    (h : (post_of env bot.bot_token bot.sim7670g m).1 = false) :
    TelegramBot.sendMessage env bot m.chat_id m.text =
      (false, { bot with sim7670g := (post_of env bot.bot_token bot.sim7670g m).2,
                         message_queue := bot.message_queue ++ [m] }) := by
  unfold post_of send_url send_json at h
  unfold TelegramBot.sendMessage post_of send_url send_json
  simp only [h, Bool.false_eq_true, if_false]

theorem send_queued_loop_run (env : Env) (fuel : Nat) :
    ∀ (bot b : TelegramBot), send_queued_loop env fuel bot = some b →
      ∃ k, k ≤ bot.message_queue.length ∧
        posts_ok env bot.bot_token bot.sim7670g (bot.message_queue.take k) = true ∧
        ((k = bot.message_queue.length ∧
            b = { bot with
              sim7670g := posts_state env bot.bot_token bot.sim7670g bot.message_queue,
              message_queue := [] }) ∨
          ∃ m, bot.message_queue[k]? = some m ∧
            (post_of env bot.bot_token
              (posts_state env bot.bot_token bot.sim7670g (bot.message_queue.take k)) m).1
              = false ∧
            b = { bot with
              sim7670g := (post_of env bot.bot_token
                (posts_state env bot.bot_token bot.sim7670g (bot.message_queue.take k)) m).2,
              message_queue := bot.message_queue.drop k ++ [m] }) := by
  induction fuel with
  | zero => intro bot b h; simp [send_queued_loop] at h
  | succ fuel ih =>
    intro bot b h
    rw [send_queued_loop] at h
    cases hq : bot.message_queue with
    | nil =>
      rw [hq] at h
      simp only [Option.some.injEq] at h
      subst h
      refine ⟨0, by simp, by simp [posts_ok], Or.inl ⟨by simp, ?_⟩⟩
      cases bot
      simp only [posts_state] at hq ⊢
      simp only [TelegramBot.mk.injEq, true_and, and_true]
      exact hq
    | cons msg tl =>
      rw [hq] at h
      simp only at h
      by_cases hs : (post_of env bot.bot_token bot.sim7670g msg).1 = true
      · rw [sendMessage_ok env bot msg hs] at h
        simp only [if_true, hq, List.tail_cons] at h
        obtain ⟨k, hk, hok, hcase⟩ := ih _ b h
        simp only at hk hok hcase
        refine ⟨k + 1, by simp; omega, ?_, ?_⟩
        · simp only [List.take_succ_cons, posts_ok, hs, Bool.true_and]
          exact hok
        · rcases hcase with ⟨h1, h2⟩ | ⟨m, h1, h2, h3⟩
          · left
            refine ⟨by simp [h1], ?_⟩
            rw [h2]
            simp only [posts_state]
          · right
            refine ⟨m, by simpa using h1, ?_, ?_⟩
            · simpa only [List.take_succ_cons, posts_state] using h2
            · rw [h3]
              simp only [List.take_succ_cons, posts_state, List.drop_succ_cons]
      · simp only [Bool.not_eq_true] at hs
        rw [sendMessage_fail env bot msg hs] at h
        simp only [Bool.false_eq_true, if_false, Option.some.injEq] at h
        subst h
        refine ⟨0, by simp, by simp [posts_ok], Or.inr ⟨msg, by simp, ?_, ?_⟩⟩
        · simpa only [List.take_zero, posts_state] using hs
        · simp only [List.take_zero, posts_state, List.drop_zero, hq]

theorem send_queued_loop_returns (env : Env) (fuel : Nat) :
    ∀ (bot : TelegramBot), bot.message_queue.length < fuel →
      ∃ b, send_queued_loop env fuel bot = some b := by
  induction fuel with
  | zero => intro bot h; omega
  | succ fuel ih =>
    intro bot h
    rw [send_queued_loop]
    cases hq : bot.message_queue with
    | nil => exact ⟨bot, rfl⟩
    | cons msg tl =>
      simp only
      by_cases hs : (TelegramBot.sendMessage env bot msg.chat_id msg.text).1 = true
      · rw [if_pos hs]
        apply ih
        have hqq := sendMessage_ok_queue env bot msg.chat_id msg.text hs
        simp only [hqq, hq, List.tail_cons]
        rw [hq] at h
        simp at h
        omega
      · rw [if_neg hs]
        exact ⟨_, rfl⟩

/-- C20: when the queue is not empty and the HTTP POST of its front message
fails, `send_queued_messages` stops and returns false, and the queue afterwards
is the queue before the call with one more copy of the front message at the
back (the driver is as that POST left it, the rest of the bot is unchanged).
In general the function returns once it has fuel for each queued message, and
its result is fixed by the number `k` of messages at the front whose POSTs, made
one after the other, succeed: exactly those `k` are removed; either they are all
of the queue and the function returns true with the queue empty, or the POST of
message `k` fails and the function returns false with the queue from message `k`
on, that message included, plus a copy of it at the back. -/
theorem send_queued_front_failure (env : Env) (fuel : Nat) (bot : TelegramBot)
    (front : TelegramMessage) (rest : List TelegramMessage)
    (hq : bot.message_queue = front :: rest)
    (hpost : (sim7670g_https_post env bot.sim7670g (send_url bot.bot_token)
      (send_json front.chat_id front.text)).1 = false) :
    (∃ b, TelegramBot.send_queued_messages env (fuel + 1) bot = some (false, b) ∧
      b.message_queue = bot.message_queue ++ [front] ∧
      b.message_queue.length = bot.message_queue.length + 1 ∧
      b = { bot with
        sim7670g := (post_of env bot.bot_token bot.sim7670g front).2,
        message_queue := front :: rest ++ [front] }) ∧
    (∀ (bot2 : TelegramBot), ∃ r k,
      TelegramBot.send_queued_messages env (bot2.message_queue.length + 1) bot2 = some r ∧
      k ≤ bot2.message_queue.length ∧
      posts_ok env bot2.bot_token bot2.sim7670g (bot2.message_queue.take k) = true ∧
      ((k = bot2.message_queue.length ∧
          r = (true, { bot2 with
            sim7670g := posts_state env bot2.bot_token bot2.sim7670g bot2.message_queue,
            message_queue := [] })) ∨
        ∃ m, bot2.message_queue[k]? = some m ∧
          (post_of env bot2.bot_token
            (posts_state env bot2.bot_token bot2.sim7670g (bot2.message_queue.take k)) m).1
            = false ∧
          r = (false, { bot2 with
            sim7670g := (post_of env bot2.bot_token
              (posts_state env bot2.bot_token bot2.sim7670g (bot2.message_queue.take k)) m).2,
            message_queue := bot2.message_queue.drop k ++ [m] }))) := by
  have hpo : (post_of env bot.bot_token bot.sim7670g front).1 = false := hpost
  have hsm := sendMessage_fail env bot front hpo
  constructor
  · refine ⟨(TelegramBot.sendMessage env bot front.chat_id front.text).2, ?_, ?_, ?_, ?_⟩
    · unfold TelegramBot.send_queued_messages
      rw [send_queued_loop, hq]
      simp only [hsm, Bool.false_eq_true, if_false, hq]
      simp
    · rw [hsm]
    · rw [hsm]
      simp
    · rw [hsm, hq]
  · intro bot2
    obtain ⟨b, hb⟩ := send_queued_loop_returns env (bot2.message_queue.length + 1) bot2
      (Nat.lt_succ_self _)
    obtain ⟨k, hk, hok, hcase⟩ := send_queued_loop_run env _ bot2 b hb
    refine ⟨(b.message_queue.isEmpty, b), k, ?_, hk, hok, ?_⟩
    · unfold TelegramBot.send_queued_messages
      rw [hb]
    · rcases hcase with ⟨h1, h2⟩ | ⟨m, h1, h2, h3⟩
      · left
        refine ⟨h1, ?_⟩
        rw [h2]
        rfl
      · right
        refine ⟨m, h1, h2, ?_⟩
        rw [h3]
        simp

/-- A run of C20 on `sample_post_env`, which accepts one POST and then withholds
the `DOWNLOAD` prompt: with the second message at the front its delivery fails
and it is queued again behind itself; from the full queue the first message is
delivered and removed, the second fails and stays, with a copy at the back. -/
theorem send_queued_front_failure_witness :
    (∃ b, TelegramBot.send_queued_messages sample_post_env 1 sample_bot_later = some (false, b) ∧
      b.message_queue = sample_bot_later.message_queue ++ [⟨str "111", str "second"⟩] ∧
      b.message_queue.length = sample_bot_later.message_queue.length + 1 ∧
      b = { sample_bot_later with
        sim7670g := (post_of sample_post_env sample_bot_later.bot_token
          sample_bot_later.sim7670g ⟨str "111", str "second"⟩).2,
        message_queue := ⟨str "111", str "second"⟩ :: [] ++ [⟨str "111", str "second"⟩] }) ∧
    (TelegramBot.send_queued_messages sample_post_env 3 sample_bot).map
        (fun r => (r.1, r.2.message_queue)) =
      some (false, [⟨str "111", str "second"⟩, ⟨str "111", str "second"⟩]) :=
  ⟨(send_queued_front_failure sample_post_env 0 sample_bot_later ⟨str "111", str "second"⟩
      [] rfl (by decide)).1, by decide⟩
end Sim7670G
